import Mathlib

/-!
# movies-api: pagination, filters, list queries, saved movies and API-key authentication

A shallow embedding of the Go sources under `mock-interview/internal`
(`utils/pagination.go`, `handler/*.go`, `repository/*.go`,
`middleware/auth_middleware.go`) together with the properties proved about them.

Conventions of the embedding.

* A Go `string` is a Lean `String`; `len(s)` is the UTF-8 byte length `String.utf8ByteSize`.
* A Go `int` (64 bit) is an `Int`; where the source does arithmetic the result is wrapped
  by `wrapInt64`.
* A Go `error` result is an `Option`/`Except`; the message text is kept because the handlers
  inspect it with `strings.Contains`.
* The relational store behind `pgxpool.Pool` is a record of row lists (`Store`).
-/

namespace MoviesAPI

/-! ## Go library functions used by the sources -/

/-- Two's complement wrap-around of a mathematical integer into Go's 64-bit `int`. -/
def wrapInt64 (x : Int) : Int := (x + 2 ^ 63) % 2 ^ 64 - 2 ^ 63

/-- Smallest value of Go's 64-bit `int`. -/
def minInt64 : Int := -(2 ^ 63)

/-- Largest value of Go's 64-bit `int`. -/
def maxInt64 : Int := 2 ^ 63 - 1

/-- Go `url.Values`, as the ordered list of decoded `key=value` pairs of the query string. -/
abbrev Values := List (String × String)

/-- Go `url.Values.Get`: the first value associated with the key, `""` when there is none. -/
def Values.Get (v : Values) (key : String) : String :=
  match v.find? (fun p => p.1 = key) with
  | some p => p.2
  | none => ""

/-- Value of one decimal digit, `none` for any other character
(`ch -= '0'; if ch > 9 { syntax error }` in `strconv`). -/
def digitVal (c : Char) : Option Nat :=
  if 48 ≤ c.toNat ∧ c.toNat ≤ 57 then some (c.toNat - 48) else none

/-- Accumulate a run of decimal digits (`n = n*10 + d`), failing on the first non-digit. -/
def parseDigits : List Char → Nat → Option Nat
  | [], n => some n
  | c :: cs, n =>
    match digitVal c with
    | none => none
    | some d => parseDigits cs (n * 10 + d)

/-- Split an optional leading sign off (`strconv.ParseInt`): the flag is true for `-`. -/
def splitSign : List Char → Bool × List Char
  | [] => (false, [])
  | c :: cs => if c = '-' then (true, cs) else if c = '+' then (false, cs) else (false, c :: cs)

/-- Go `strconv.Atoi` on a 64-bit platform: an optional sign followed by at least one decimal
digit, with the value inside the `int64` range; every other string is an error (the caller
only tests `err != nil`, so syntax and range errors are not told apart). -/
def Atoi (s : String) : Option Int :=
  let p := splitSign s.data
  if p.2 = [] then none
  else
    match parseDigits p.2 0 with
    | none => none
    | some n =>
      let v : Int := if p.1 then -(n : Int) else (n : Int)
      if minInt64 ≤ v ∧ v ≤ maxInt64 then some v else none

/-- Go `unicode.IsSpace`: the Unicode White_Space code points. -/
def isSpace (c : Char) : Bool :=
  let n := c.toNat
  decide (n = 0x09 ∨ n = 0x0A ∨ n = 0x0B ∨ n = 0x0C ∨ n = 0x0D ∨ n = 0x20 ∨ n = 0x85 ∨
    n = 0xA0 ∨ n = 0x1680 ∨ (0x2000 ≤ n ∧ n ≤ 0x200A) ∨ n = 0x2028 ∨ n = 0x2029 ∨
    n = 0x202F ∨ n = 0x205F ∨ n = 0x3000)

/-- Go `strings.TrimSpace`: leading and trailing white space removed. -/
def TrimSpace (s : String) : String :=
  ⟨((s.data.dropWhile isSpace).reverse.dropWhile isSpace).reverse⟩

/-- A 128-bit identifier (`uuid.UUID`), as its numeric value. -/
abbrev UUID := Nat

/-- Library functions whose tables or parsers are not part of this repository; the
embedding takes them as given and every statement holds for any choice of them. -/
structure Lib where
  /-- Go `unicode.ToUpper` on the runes outside ASCII. -/
  unicodeUpper : Char → Char
  /-- Go `uuid.Parse`: `none` for a parse error. -/
  uuidParse : String → Option UUID
  /-- Go `uuid.UUID.String`. -/
  uuidString : UUID → String
  /-- Go `json.NewDecoder(r.Body).Decode(&req)` into `struct { MovieID string }`:
  the decoded `movie_id` field, `none` for a decode error. -/
  decodeMovieID : String → Option String

/-- Go `unicode.ToUpper` on one rune: ASCII is mapped by the code (`r -= 'a' - 'A'`),
the other runes by the Unicode case tables. -/
def upperRune (L : Lib) (c : Char) : Char :=
  if c.toNat < 128 then
    (if 97 ≤ c.toNat ∧ c.toNat ≤ 122 then Char.ofNat (c.toNat - 32) else c)
  else L.unicodeUpper c

/-- Go `strings.ToUpper`. -/
def ToUpper (L : Lib) (s : String) : String := ⟨s.data.map (upperRune L)⟩

/-- Go `len(s)` of a string: its length in bytes. -/
def len (s : String) : Nat := s.utf8ByteSize

/-- Go `strings.Contains`. -/
def Contains (s substr : String) : Bool :=
  s.data.tails.any (fun t => substr.data.isPrefixOf t)

/-- Go `strings.Split` with a one-character separator, on character lists. -/
def splitChars (sep : Char) : List Char → List (List Char)
  | [] => [[]]
  | c :: cs =>
    if c = sep then [] :: splitChars sep cs
    else
      match splitChars sep cs with
      | [] => [[c]]
      | p :: ps => (c :: p) :: ps

/-- Go `strings.Split(s, " ")`. -/
def SplitSpace (s : String) : List String := (splitChars ' ' s.data).map String.mk

/-- Go `textproto.CanonicalMIMEHeaderKey` on keys made of letters, digits and hyphens:
the first letter and every letter after a hyphen in upper case, the others in lower case. -/
def canonicalKeyChars : Bool → List Char → List Char
  | _, [] => []
  | up, c :: cs =>
    (if up then c.toUpper else c.toLower) :: canonicalKeyChars (decide (c = '-')) cs

/-- Go `http.Header`, as the list of `(canonical key, value)` lines of the request. -/
abbrev Header := List (String × String)

/-- Go `http.Header.Get`: the first value under the canonical form of the key. -/
def Header.Get (h : Header) (key : String) : String :=
  Values.Get h ⟨canonicalKeyChars true key.data⟩

/-! ## Requests, responses, rows -/

/-- The parts of `*http.Request` read by the handlers and the middleware. -/
structure Request where
  Method : String := "GET"
  Header : Header := []
  /-- Decoded query string: `r.URL.Query()`. -/
  Query : Values := []
  /-- Route variables: `mux.Vars(r)`. -/
  Vars : Values := []
  Body : String := ""
  /-- Context value stored under `UserIDKey`. -/
  ctxUserID : Option UUID := none
  deriving DecidableEq, Repr

/-- Row type `MovieResponse` of the list handlers. -/
structure MovieResponse where
  ID : String
  Title : String
  Year : Int
  deriving DecidableEq, Repr

/-- Row of table `genres` (`model.Genre`). -/
structure Genre where
  ID : UUID
  Name : String
  deriving DecidableEq, Repr

/-- What a handler writes as the response body. -/
inductive Body where
  /-- No body was written. -/
  | empty
  /-- `ErrorResponse` written by `WriteErrorResponse`. -/
  | error (code message : String)
  /-- `PagedResponse` of a movie listing. -/
  | paged (data : List MovieResponse) (page pageSize total : Int)
  /-- The `id`, `title`, `year` map returned by `SaveMovie`. -/
  | movie (id title : String) (year : Int)
  /-- `PagedResponse` of the genre listing; its `Data` is the slice the repository returned,
  `none` being the nil slice. -/
  | pagedGenres (data : Option (List Genre)) (page pageSize total : Int)
  deriving DecidableEq, Repr

/-- How `encoding/json` writes a slice held in the `data` field of a `PagedResponse`:
`null` for a nil slice, an array of its elements otherwise. -/
inductive JSONData where
  | null
  | array (length : Nat)
  deriving DecidableEq, Repr

/-- The `data` field of a paged body as `encoding/json` writes it; `none` for the bodies
that have no such field.  The movie handlers allocate their slice with `make`, so it is
never nil. -/
def Body.dataJSON : Body → Option JSONData
  | Body.paged data _ _ _ => some (JSONData.array data.length)
  | Body.pagedGenres none _ _ _ => some JSONData.null
  | Body.pagedGenres (some data) _ _ _ => some (JSONData.array data.length)
  | _ => none

/-- Status code and body written to the `http.ResponseWriter`. -/
structure Response where
  status : Nat
  body : Body
  deriving DecidableEq, Repr

/-- `utils.WriteErrorResponse` (all call sites pass `nil` details). -/
def WriteErrorResponse (statusCode : Nat) (code message : String) : Response :=
  ⟨statusCode, Body.error code message⟩

/-- Row of table `users` (`model.User`). -/
structure User where
  ID : UUID
  Name : String
  DateOfBirth : String
  APIKeyHash : String
  deriving DecidableEq, Repr

/-- Row of table `movies` (`model.Movie`); `genre_id` is nullable. -/
structure Movie where
  ID : UUID
  Title : String
  Year : Int
  GenreID : Option UUID
  deriving DecidableEq, Repr

/-- Row of table `movie_availability`. -/
structure MovieAvailability where
  MovieID : UUID
  CountryCode : String
  deriving DecidableEq, Repr

/-- Row of table `save_movies`; `DateAdded` is a timestamp. -/
structure SaveMovies where
  UserID : UUID
  MovieID : UUID
  DateAdded : Int
  deriving DecidableEq, Repr

/-- The relational store behind the connection pool.  `uniqueSaved` tells whether the
schema (not part of the sources) declares `(user_id, movie_id)` unique in `save_movies`;
`clock` is the value of `CURRENT_TIMESTAMP`. -/
structure Store where
  users : List User := []
  movies : List Movie := []
  movie_availability : List MovieAvailability := []
  save_movies : List SaveMovies := []
  genres : List Genre := []
  uniqueSaved : Bool := true
  clock : Int := 0
  deriving DecidableEq, Repr

/-- A bound query argument. -/
inductive Arg where
  | uuid (u : UUID)
  | str (s : String)
  | int (i : Int)
  deriving DecidableEq, Repr

/-- A statement handed to the pool: SQL text and bound arguments. -/
structure SQLCall where
  query : String
  args : List Arg
  deriving DecidableEq, Repr

/-! ## `internal/utils/pagination.go` -/

/-- Constant `DefaultPage`. -/
def DefaultPage : Int := 1

/-- Constant `DefaultPageSize`. -/
def DefaultPageSize : Int := 20

/-- Constant `MaxPageSize`. -/
def MaxPageSize : Int := 100

/-- Type `PaginationError`. -/
structure PaginationError where
  Code : String
  Message : String
  deriving DecidableEq, Repr

/-- The three results `(page, pageSize int, err error)` of `ParsePaginationParams`. -/
structure PageParams where
  page : Int
  pageSize : Int
  err : Option PaginationError
  deriving DecidableEq, Repr

/-- `ValidatePageSize`: an error exactly when `pageSize > MaxPageSize`. -/
def ValidatePageSize (pageSize : Int) : Option PaginationError :=
  if pageSize > MaxPageSize then
    some ⟨"PAGE_SIZE_TOO_LARGE", "page_size exceeds maximum allowed value of 100"⟩
  else none

/-- `ParsePaginationParams`, on the query of the request (`r.URL.Query()`). -/
def ParsePaginationParams (q : Values) : PageParams :=
  let pageStr := q.Get "page"
  let pageR : Option Int :=
    if pageStr = "" then some DefaultPage
    else
      match Atoi pageStr with
      | none => none
      | some p => if p < 1 then none else some p
  match pageR with
  | none => ⟨0, 0, some ⟨"INVALID_PAGE", "page must be a positive integer"⟩⟩
  | some page =>
    let pageSizeStr := q.Get "page_size"
    let sizeR : Option Int :=
      if pageSizeStr = "" then some DefaultPageSize
      else
        match Atoi pageSizeStr with
        | none => none
        | some p => if p < 1 then none else some p
    match sizeR with
    | none => ⟨0, 0, some ⟨"INVALID_PAGE_SIZE", "page_size must be a positive integer"⟩⟩
    | some pageSize =>
      match ValidatePageSize pageSize with
      | some e => ⟨0, 0, some e⟩
      | none => ⟨page, pageSize, none⟩

/-- `CalculateOffset`: `if page < 1 { page = 1 }; return (page - 1) * pageSize`, in `int`. -/
def CalculateOffset (page pageSize : Int) : Int :=
  let page := if page < 1 then 1 else page
  wrapInt64 (wrapInt64 (page - 1) * pageSize)

/-- The statement `offset := (page - 1) * pageSize` of `movieRepo.ListMovies` and of
`saveMoviesRepo.ListSavedMovies`, in `int`. -/
def repoOffset (page pageSize : Int) : Int :=
  wrapInt64 (wrapInt64 (page - 1) * pageSize)

/-! ## `internal/repository` -/

namespace repository

/-- Interface `MovieRepository`; `σ` is the state of the store the implementation talks to.
A Go `error` is its message. -/
structure MovieRepository (σ : Type) where
  ListMovies : σ → Option String → Option UUID → Int → Int → String →
    Except String (List Movie × Int)
  GetMovieByID : σ → UUID → Except String Movie
  IsMovieAvailableInCountry : σ → UUID → String → Except String Bool

/-- Interface `SaveMoviesRepository`; the two writing methods return the new store state
next to their `error` (`none` is `nil`). -/
structure SaveMoviesRepository (σ : Type) where
  ListSavedMovies : σ → UUID → String → Int → Int → String → Except String (List Movie × Int)
  SaveMovie : σ → UUID → UUID → Option String × σ
  RemoveSavedMovie : σ → UUID → UUID → Option String × σ
  IsMovieSaved : σ → UUID → UUID → Except String Bool

/-- Interface `UserRepository`, restricted to the method the middleware calls. -/
structure UserRepository (σ : Type) where
  FindUserByAPIKey : σ → String → Except String User

/-- Everything `movieRepo.ListMovies` assembles before it talks to the pool. -/
structure ListMoviesPlan where
  needsJoin : Bool
  whereConditions : List String
  whereClause : String
  sortClause : String
  fromClause : String
  countQuery : SQLCall
  offset : Int
  query : SQLCall
  /-- The columns after `SELECT DISTINCT` in the text of `query`. -/
  selectList : List String
  /-- The expression after `ORDER BY` in `sortClause`. -/
  orderExpr : String
  deriving DecidableEq, Repr

/-- Query construction of `movieRepo.ListMovies` (movie_repo.go, lines 31-96). -/
def ListMoviesPlan.build (L : Lib) (countryCode : Option String) (genreID : Option UUID)
    (page pageSize : Int) (sortBy : String) : ListMoviesPlan :=
  let needsJoin : Bool :=
    match countryCode with
    | none => false
    | some c => decide (c ≠ "")
  let whereConditions0 : List String := []
  let args0 : List Arg := []
  let argIndex0 : Nat := 1
  let (whereConditions1, args1, argIndex1) :=
    match genreID with
    | some g =>
      (whereConditions0 ++ ["m.genre_id = $" ++ toString argIndex0], args0 ++ [Arg.uuid g],
        argIndex0 + 1)
    | none => (whereConditions0, args0, argIndex0)
  let (whereConditions, args, argIndex) :=
    if needsJoin then
      (whereConditions1 ++ ["ma.country_code = $" ++ toString argIndex1],
        args1 ++ [Arg.str (ToUpper L (countryCode.getD ""))], argIndex1 + 1)
    else (whereConditions1, args1, argIndex1)
  let whereClause : String :=
    if whereConditions.length > 0 then "WHERE " ++ " AND ".intercalate whereConditions else ""
  let sortClause : String :=
    if sortBy = "year" then "ORDER BY m.year ASC"
    else if sortBy = "-year" then "ORDER BY m.year DESC"
    else "ORDER BY m.year DESC"
  let fromClause : String :=
    if needsJoin then "FROM movies m INNER JOIN movie_availability ma ON m.id = ma.movie_id"
    else "FROM movies m"
  let countQuery : String := "SELECT COUNT(DISTINCT m.id) " ++ fromClause ++ " " ++ whereClause
  let offset := repoOffset page pageSize
  let query : String :=
    "\n\t\tSELECT DISTINCT m.id, m.title, m.year, m.genre_id \n\t\t" ++ fromClause ++
      " \n\t\t" ++ whereClause ++ " \n\t\t" ++ sortClause ++ " \n\t\tLIMIT $" ++
      toString argIndex ++ " OFFSET $" ++ toString (argIndex + 1) ++ "\n\t"
  { needsJoin := needsJoin
    whereConditions := whereConditions
    whereClause := whereClause
    sortClause := sortClause
    fromClause := fromClause
    countQuery := ⟨countQuery, args⟩
    offset := offset
    query := ⟨query, args ++ [Arg.int pageSize, Arg.int offset]⟩
    selectList := ["m.id", "m.title", "m.year", "m.genre_id"]
    orderExpr := "m.year" }

/-- The store's rule for `SELECT DISTINCT ... ORDER BY e`: `e` has to be one of the selected
columns, otherwise the statement is rejected with this error. -/
def checkDistinctOrder (selectList : List String) (orderExpr : String) : Option String :=
  if selectList.contains orderExpr then none
  else
    some ("ERROR: for SELECT DISTINCT, ORDER BY expressions must appear in select list " ++
      "(SQLSTATE 42P10)")

/-- Rows of `movies m`, joined with `movie_availability` and filtered by country when a
country is bound, filtered by genre when a genre is bound (a NULL `genre_id` matches no
genre). -/
def listMoviesRows (db : Store) (genre : Option UUID) (country : Option String) :
    List Movie :=
  let joined : List Movie :=
    match country with
    | none => db.movies
    | some c =>
      db.movies.flatMap fun m =>
        (db.movie_availability.filter fun a => a.MovieID = m.ID ∧ a.CountryCode = c).map
          fun _ => m
  match genre with
  | none => joined
  | some g => joined.filter fun m => m.GenreID = some g

/-- `LIMIT`/`OFFSET` of the store, which rejects negative values. -/
def limitOffset {α : Type} (rows : List α) (limit offset : Int) : Except String (List α) :=
  if limit < 0 then Except.error "ERROR: LIMIT must not be negative (SQLSTATE 2201W)"
  else if offset < 0 then Except.error "ERROR: OFFSET must not be negative (SQLSTATE 2201X)"
  else Except.ok ((rows.drop offset.toNat).take limit.toNat)

/-- `movieRepo.ListMovies` on the store: the count query, then the page query; rows with
equal years are returned in storage order. -/
def ListMovies (L : Lib) (db : Store) (countryCode : Option String) (genreID : Option UUID)
    (page pageSize : Int) (sortBy : String) : Except String (List Movie × Int) :=
  let plan := ListMoviesPlan.build L countryCode genreID page pageSize sortBy
  let country : Option String :=
    if plan.needsJoin then some (ToUpper L (countryCode.getD "")) else none
  let rows := listMoviesRows db genreID country
  let total : Int := ((rows.map fun m => m.ID).dedup.length : Nat)
  let sorted :=
    if plan.sortClause = "ORDER BY m.year ASC" then
      rows.dedup.insertionSort fun a b => a.Year ≤ b.Year
    else rows.dedup.insertionSort fun a b => b.Year ≤ a.Year
  match checkDistinctOrder plan.selectList plan.orderExpr with
  | some e => Except.error e
  | none =>
    match limitOffset sorted pageSize plan.offset with
    | Except.error e => Except.error e
    | Except.ok movies => Except.ok (movies, total)

/-- `movieRepo.GetMovieByID` on the store: the first row with the id, `pgx.ErrNoRows`
becoming `movie not found`. -/
def GetMovieByID (db : Store) (movieID : UUID) : Except String Movie :=
  match db.movies.find? fun m => m.ID = movieID with
  | none => Except.error "movie not found"
  | some movie => Except.ok movie

/-- The statement issued by `movieRepo.IsMovieAvailableInCountry`. -/
def IsMovieAvailableInCountryCall (L : Lib) (movieID : UUID) (countryCode : String) :
    SQLCall :=
  ⟨"SELECT EXISTS(SELECT 1 FROM movie_availability WHERE movie_id = $1 AND country_code = $2)",
    [Arg.uuid movieID, Arg.str (ToUpper L countryCode)]⟩

/-- `movieRepo.IsMovieAvailableInCountry` on the store. -/
def IsMovieAvailableInCountry (L : Lib) (db : Store) (movieID : UUID) (countryCode : String) :
    Except String Bool :=
  Except.ok (db.movie_availability.any fun a =>
    decide (a.MovieID = movieID ∧ a.CountryCode = ToUpper L countryCode))

/-- The store-backed `MovieRepository` (`NewMovieRepository`). -/
def movieRepo (L : Lib) : MovieRepository Store where
  ListMovies := ListMovies L
  GetMovieByID := GetMovieByID
  IsMovieAvailableInCountry := IsMovieAvailableInCountry L

/-- Everything `saveMoviesRepo.ListSavedMovies` assembles before it talks to the pool. -/
structure ListSavedMoviesPlan where
  sortClause : String
  whereClause : String
  countQuery : SQLCall
  offset : Int
  query : SQLCall
  /-- The columns after `SELECT DISTINCT` in the text of `query`. -/
  selectList : List String
  /-- The expression after `ORDER BY` in `sortClause`. -/
  orderExpr : String
  deriving DecidableEq, Repr

/-- Query construction of `saveMoviesRepo.ListSavedMovies` (save_movies_repo.go, 32-75). -/
def ListSavedMoviesPlan.build (L : Lib) (userID : UUID) (countryCode : String)
    (page pageSize : Int) (sortBy : String) : ListSavedMoviesPlan :=
  let sortClause : String :=
    if sortBy = "date_added" then "ORDER BY sm.date_added ASC"
    else if sortBy = "-date_added" then "ORDER BY sm.date_added DESC"
    else "ORDER BY sm.date_added DESC"
  let whereClause : String := "WHERE sm.user_id = $1 AND ma.country_code = $2"
  let args : List Arg := [Arg.uuid userID, Arg.str (ToUpper L countryCode)]
  let countQuery : String :=
    "\n\t\tSELECT COUNT(DISTINCT sm.movie_id)\n\t\tFROM save_movies sm\n\t\t" ++
      "INNER JOIN movie_availability ma ON sm.movie_id = ma.movie_id\n\t\t" ++
      whereClause ++ "\n\t"
  let offset := repoOffset page pageSize
  let query : String :=
    "\n\t\tSELECT DISTINCT m.id, m.title, m.year, m.genre_id\n\t\tFROM save_movies sm\n\t\t" ++
      "INNER JOIN movies m ON sm.movie_id = m.id\n\t\t" ++
      "INNER JOIN movie_availability ma ON m.id = ma.movie_id\n\t\t" ++
      whereClause ++ "\n\t\t" ++ sortClause ++ "\n\t\tLIMIT $3 OFFSET $4\n\t"
  { sortClause := sortClause
    whereClause := whereClause
    countQuery := ⟨countQuery, args⟩
    offset := offset
    query := ⟨query, args ++ [Arg.int pageSize, Arg.int offset]⟩
    selectList := ["m.id", "m.title", "m.year", "m.genre_id"]
    orderExpr := "sm.date_added" }

/-- The condition `user_id = $1 AND movie_id = $2` on a row of `save_movies`. -/
def isPair (userID movieID : UUID) (r : SaveMovies) : Bool :=
  decide (r.UserID = userID ∧ r.MovieID = movieID)

/-- `saveMoviesRepo.IsMovieSaved` on the store. -/
def IsMovieSaved (db : Store) (userID movieID : UUID) : Except String Bool :=
  Except.ok (db.save_movies.any (isPair userID movieID))

/-- The `INSERT INTO save_movies ... CURRENT_TIMESTAMP` statement on the store: a unique
violation when the schema declares the pair unique and it is present, one more row
otherwise. -/
def execInsertSaved (db : Store) (userID movieID : UUID) : Except String Store :=
  if db.uniqueSaved = true ∧ db.save_movies.any (isPair userID movieID) = true then
    Except.error "ERROR: duplicate key value violates unique constraint (SQLSTATE 23505)"
  else
    Except.ok { db with save_movies := db.save_movies ++ [⟨userID, movieID, db.clock⟩] }

/-- `saveMoviesRepo.SaveMovie` on the store. -/
def SaveMovie (db : Store) (userID movieID : UUID) : Option String × Store :=
  match IsMovieSaved db userID movieID with
  | Except.error e => (some e, db)
  | Except.ok isSaved =>
    if isSaved then (some "movie already saved", db)
    else
      match execInsertSaved db userID movieID with
      | Except.error e =>
        if Contains e "duplicate" || Contains e "unique" then (some "movie already saved", db)
        else (some e, db)
      | Except.ok db1 => (none, db1)

/-- The `DELETE FROM save_movies WHERE user_id = $1 AND movie_id = $2` statement on the
store: the number of rows affected and the new state. -/
def execDeleteSaved (db : Store) (userID movieID : UUID) : Nat × Store :=
  let kept := db.save_movies.filter fun r => !isPair userID movieID r
  (db.save_movies.length - kept.length, { db with save_movies := kept })

/-- `saveMoviesRepo.RemoveSavedMovie` on the store. -/
def RemoveSavedMovie (db : Store) (userID movieID : UUID) : Option String × Store :=
  let result := execDeleteSaved db userID movieID
  if result.1 = 0 then (some "movie not saved", result.2) else (none, result.2)

/-- Rows of `save_movies sm INNER JOIN movies m INNER JOIN movie_availability ma` of one
user and one country, as the movie of each. -/
def listSavedRows (db : Store) (userID : UUID) (country : String) : List Movie :=
  db.save_movies.flatMap fun sm =>
    db.movies.flatMap fun m =>
      (db.movie_availability.filter fun a =>
        sm.MovieID = m.ID ∧ m.ID = a.MovieID ∧ sm.UserID = userID ∧
          a.CountryCode = country).map fun _ => m

/-- The `movie_id` of the rows of `save_movies sm INNER JOIN movie_availability ma` of one
user and one country (the count query has no join with `movies`). -/
def countSavedRows (db : Store) (userID : UUID) (country : String) : List UUID :=
  db.save_movies.flatMap fun sm =>
    (db.movie_availability.filter fun a =>
      sm.MovieID = a.MovieID ∧ sm.UserID = userID ∧ a.CountryCode = country).map
        fun _ => sm.MovieID

/-- `saveMoviesRepo.ListSavedMovies` on the store: the count query, then the page query,
which the store accepts only if its `ORDER BY` expression is in its `SELECT DISTINCT`
list. -/
def ListSavedMovies (L : Lib) (db : Store) (userID : UUID) (countryCode : String)
    (page pageSize : Int) (sortBy : String) : Except String (List Movie × Int) :=
  let plan := ListSavedMoviesPlan.build L userID countryCode page pageSize sortBy
  let total : Int := ((countSavedRows db userID (ToUpper L countryCode)).dedup.length : Nat)
  match checkDistinctOrder plan.selectList plan.orderExpr with
  | some e => Except.error e
  | none =>
    match limitOffset (listSavedRows db userID (ToUpper L countryCode)).dedup pageSize
        plan.offset with
    | Except.error e => Except.error e
    | Except.ok movies => Except.ok (movies, total)

/-- The store-backed `SaveMoviesRepository` (`NewSaveMoviesRepository`). -/
def saveMoviesRepo (L : Lib) : SaveMoviesRepository Store where
  ListSavedMovies := ListSavedMovies L
  SaveMovie := SaveMovie
  RemoveSavedMovie := RemoveSavedMovie
  IsMovieSaved := IsMovieSaved

/-- `userRepo.FindUserByAPIKey` on the store: the first row whose `api_key_hash` column
equals the argument, `pgx.ErrNoRows` becoming `invalid API key`. -/
def FindUserByAPIKey (db : Store) (apiKey : String) : Except String User :=
  match db.users.find? fun u => u.APIKeyHash = apiKey with
  | none => Except.error "invalid API key"
  | some user => Except.ok user

/-- The store-backed `UserRepository` (`NewUserRepository`). -/
def userRepo : UserRepository Store where
  FindUserByAPIKey := FindUserByAPIKey

/-- Interface `GenreRepository`.  The returned slice is kept with its nil-ness (`none` is
the nil slice) because handler `ListGenres` hands it to the encoder as it is. -/
structure GenreRepository (σ : Type) where
  ListGenres : σ → Int → Int → Except String (Option (List Genre) × Int)

/-- The loop `var xs []T; for rows.Next() { xs = append(xs, x) }`: the nil slice when the
store returned no row. -/
def scanRows {α : Type} (rows : List α) : Option (List α) :=
  match rows with
  | [] => none
  | r :: rs => some (r :: rs)

/-- `genreRepo.ListGenres` on the store: `SELECT COUNT(*) FROM genres`, then the page
`ORDER BY name ASC LIMIT $1 OFFSET $2`. -/
def ListGenres (db : Store) (page pageSize : Int) :
    Except String (Option (List Genre) × Int) :=
  let offset := repoOffset page pageSize
  let total : Int := (db.genres.length : Nat)
  match limitOffset (db.genres.insertionSort fun a b => a.Name ≤ b.Name) pageSize offset with
  | Except.error e => Except.error e
  | Except.ok rows => Except.ok (scanRows rows, total)

/-- The store-backed `GenreRepository` (`NewGenreRepository`). -/
def genreRepo : GenreRepository Store where
  ListGenres := ListGenres

/-- A `MovieRepository` whose pool cannot reach the database: every call fails with the
driver's error. -/
def downMovieRepo (σ : Type) : MovieRepository σ where
  ListMovies := fun _ _ _ _ _ _ => Except.error "failed to connect: connection refused"
  GetMovieByID := fun _ _ => Except.error "failed to connect: connection refused"
  IsMovieAvailableInCountry := fun _ _ _ => Except.error "failed to connect: connection refused"

/-- A `UserRepository` whose pool cannot reach the database. -/
def downUserRepo (σ : Type) : UserRepository σ where
  FindUserByAPIKey := fun _ _ => Except.error "failed to connect: connection refused"

end repository

/-! ## `internal/handler` -/

namespace handler

/-- Constant `ErrorCodeDuplicateSave`. -/
def ErrorCodeDuplicateSave : String := "DUPLICATE_SAVE"

/-- Constant `ErrorCodeUnavailableInCountry`. -/
def ErrorCodeUnavailableInCountry : String := "UNAVAILABLE_IN_COUNTRY"

/-- Constant `ErrorCodeNotSaved`. -/
def ErrorCodeNotSaved : String := "NOT_SAVED"

/-- The loop building `movieResponses` in the two list handlers. -/
def movieResponses (L : Lib) (movies : List Movie) : List MovieResponse :=
  movies.map fun movie => ⟨L.uuidString movie.ID, movie.Title, movie.Year⟩

/-- The arguments with which handler `ListMovies` calls `repo.ListMovies`. -/
structure ListMoviesArgs where
  countryCode : Option String
  genreID : Option UUID
  page : Int
  pageSize : Int
  sortBy : String
  deriving DecidableEq, Repr

/-- Handler `ListMovies` up to the repository call (movie_handler.go, lines 16-71): the
error response written by the first failing check, or the arguments for the repository. -/
def ListMoviesValidate (L : Lib) (r : Request) : Except Response ListMoviesArgs :=
  if r.Method ≠ "GET" then
    Except.error (WriteErrorResponse 405 "METHOD_NOT_ALLOWED" "Method not allowed")
  else
    let pp := ParsePaginationParams r.Query
    match pp.err with
    | some pagErr => Except.error (WriteErrorResponse 400 pagErr.Code pagErr.Message)
    | none =>
      let countryParam := TrimSpace (r.Query.Get "country")
      let countryR : Except Response (Option String) :=
        if countryParam ≠ "" then
          let countryParam := ToUpper L countryParam
          if len countryParam ≠ 2 then
            Except.error (WriteErrorResponse 400 "INVALID_COUNTRY_CODE"
              "Invalid country code: must be ISO-3166-1 alpha-2 format (2 characters)")
          else Except.ok (some countryParam)
        else Except.ok none
      match countryR with
      | Except.error resp => Except.error resp
      | Except.ok countryCode =>
        let genreParam := TrimSpace (r.Query.Get "genre")
        let genreR : Except Response (Option UUID) :=
          if genreParam ≠ "" then
            match L.uuidParse genreParam with
            | none =>
              Except.error (WriteErrorResponse 400 "INVALID_GENRE_ID"
                "Invalid genre ID: must be a valid UUID")
            | some parsedGenreID => Except.ok (some parsedGenreID)
          else Except.ok none
        match genreR with
        | Except.error resp => Except.error resp
        | Except.ok genreID =>
          let sortBy := TrimSpace (r.Query.Get "sort")
          if sortBy = "" then Except.ok ⟨countryCode, genreID, pp.page, pp.pageSize, "-year"⟩
          else if sortBy ≠ "year" ∧ sortBy ≠ "-year" then
            Except.error (WriteErrorResponse 400 "INVALID_SORT_PARAMETER"
              "Invalid sort parameter: must be 'year' or '-year'")
          else Except.ok ⟨countryCode, genreID, pp.page, pp.pageSize, sortBy⟩

/-- Handler `ListMovies` (GET /movies). -/
def ListMovies {σ : Type} (L : Lib) (repo : repository.MovieRepository σ) (r : Request)
    (s : σ) : Response :=
  match ListMoviesValidate L r with
  | Except.error resp => resp
  | Except.ok a =>
    match repo.ListMovies s a.countryCode a.genreID a.page a.pageSize a.sortBy with
    | Except.error e =>
      WriteErrorResponse 500 "INTERNAL_ERROR" ("Failed to fetch movies: " ++ e)
    | Except.ok (movies, total) =>
      ⟨200, Body.paged (movieResponses L movies) a.page a.pageSize total⟩

/-- The arguments with which handler `ListSavedMovies` calls `saveRepo.ListSavedMovies`. -/
structure ListSavedMoviesArgs where
  userID : UUID
  countryCode : String
  page : Int
  pageSize : Int
  sortBy : String
  deriving DecidableEq, Repr

/-- Handler `ListSavedMovies` up to the repository call (save_movies_handler.go, lines
23-75). -/
def ListSavedMoviesValidate (L : Lib) (r : Request) : Except Response ListSavedMoviesArgs :=
  if r.Method ≠ "GET" then
    Except.error (WriteErrorResponse 405 "METHOD_NOT_ALLOWED" "Method not allowed")
  else
    match L.uuidParse (r.Vars.Get "user_id") with
    | none => Except.error (WriteErrorResponse 400 "INVALID_USER_ID" "Invalid user ID format")
    | some userID =>
      let countryCode := TrimSpace (r.Query.Get "country")
      if countryCode = "" then
        Except.error (WriteErrorResponse 400 "MISSING_COUNTRY" "Country parameter is required")
      else
        let countryCode := ToUpper L countryCode
        if len countryCode ≠ 2 then
          Except.error (WriteErrorResponse 400 "INVALID_COUNTRY_CODE"
            "Invalid country code: must be ISO-3166-1 alpha-2 format (2 characters)")
        else
          let pp := ParsePaginationParams r.Query
          match pp.err with
          | some pagErr => Except.error (WriteErrorResponse 400 pagErr.Code pagErr.Message)
          | none =>
            let sortBy := TrimSpace (r.Query.Get "sort")
            if sortBy = "" then
              Except.ok ⟨userID, countryCode, pp.page, pp.pageSize, "-date_added"⟩
            else if sortBy ≠ "date_added" ∧ sortBy ≠ "-date_added" then
              Except.error (WriteErrorResponse 400 "INVALID_SORT_PARAMETER"
                "Invalid sort parameter: must be 'date_added' or '-date_added'")
            else Except.ok ⟨userID, countryCode, pp.page, pp.pageSize, sortBy⟩

/-- Handler `ListSavedMovies` (GET /users/{user_id}/movies). -/
def ListSavedMovies {σ : Type} (L : Lib) (saveRepo : repository.SaveMoviesRepository σ)
    (_movieRepo : repository.MovieRepository σ) (r : Request) (s : σ) : Response :=
  match ListSavedMoviesValidate L r with
  | Except.error resp => resp
  | Except.ok a =>
    match saveRepo.ListSavedMovies s a.userID a.countryCode a.page a.pageSize a.sortBy with
    | Except.error e =>
      WriteErrorResponse 500 "INTERNAL_ERROR" ("Failed to fetch saved movies: " ++ e)
    | Except.ok (movies, total) =>
      ⟨200, Body.paged (movieResponses L movies) a.page a.pageSize total⟩

/-- The values handler `SaveMovie` has validated when it turns to the repositories. -/
structure SaveMovieArgs where
  userID : UUID
  countryCode : String
  movieID : UUID
  deriving DecidableEq, Repr

/-- Handler `SaveMovie` up to the repository calls (save_movies_handler.go, lines 113-159). -/
def SaveMovieValidate (L : Lib) (r : Request) : Except Response SaveMovieArgs :=
  if r.Method ≠ "POST" then
    Except.error (WriteErrorResponse 405 "METHOD_NOT_ALLOWED" "Method not allowed")
  else
    match L.uuidParse (r.Vars.Get "user_id") with
    | none => Except.error (WriteErrorResponse 400 "INVALID_USER_ID" "Invalid user ID format")
    | some userID =>
      let countryCode := TrimSpace (r.Query.Get "country")
      if countryCode = "" then
        Except.error (WriteErrorResponse 400 "MISSING_COUNTRY" "Country parameter is required")
      else
        let countryCode := ToUpper L countryCode
        if len countryCode ≠ 2 then
          Except.error (WriteErrorResponse 400 "INVALID_COUNTRY_CODE"
            "Invalid country code: must be ISO-3166-1 alpha-2 format (2 characters)")
        else
          match L.decodeMovieID r.Body with
          | none => Except.error (WriteErrorResponse 400 "INVALID_REQUEST" "Invalid request body")
          | some reqMovieID =>
            match L.uuidParse reqMovieID with
            | none =>
              Except.error (WriteErrorResponse 400 "INVALID_MOVIE_ID"
                "Invalid movie_id: must be a valid UUID")
            | some movieID => Except.ok ⟨userID, countryCode, movieID⟩

/-- Handler `SaveMovie` (POST /users/{user_id}/movies): the response and the store state
left behind. -/
def SaveMovie {σ : Type} (L : Lib) (saveRepo : repository.SaveMoviesRepository σ)
    (movieRepo : repository.MovieRepository σ) (r : Request) (s : σ) : Response × σ :=
  match SaveMovieValidate L r with
  | Except.error resp => (resp, s)
  | Except.ok a =>
    match movieRepo.GetMovieByID s a.movieID with
    | Except.error _ => (WriteErrorResponse 404 "MOVIE_NOT_FOUND" "Movie not found", s)
    | Except.ok _ =>
      match movieRepo.IsMovieAvailableInCountry s a.movieID a.countryCode with
      | Except.error e =>
        (WriteErrorResponse 500 "INTERNAL_ERROR" ("Failed to check movie availability: " ++ e), s)
      | Except.ok available =>
        if !available then
          (WriteErrorResponse 422 ErrorCodeUnavailableInCountry
            "Movie is not available in the specified country", s)
        else
          match saveRepo.SaveMovie s a.userID a.movieID with
          | (some e, s1) =>
            if Contains e "already saved" then
              (WriteErrorResponse 409 ErrorCodeDuplicateSave "Movie is already saved", s1)
            else (WriteErrorResponse 500 "INTERNAL_ERROR" ("Failed to save movie: " ++ e), s1)
          | (none, s1) =>
            match movieRepo.GetMovieByID s1 a.movieID with
            | Except.error e =>
              (WriteErrorResponse 500 "INTERNAL_ERROR" ("Failed to fetch movie details: " ++ e),
                s1)
            | Except.ok movie =>
              (⟨200, Body.movie (L.uuidString movie.ID) movie.Title movie.Year⟩, s1)

/-- Handler `RemoveSavedMovie` (DELETE /users/{user_id}/movies/{movie_id}): the response
and the store state left behind. -/
def RemoveSavedMovie {σ : Type} (L : Lib) (saveRepo : repository.SaveMoviesRepository σ)
    (r : Request) (s : σ) : Response × σ :=
  if r.Method ≠ "DELETE" then
    (WriteErrorResponse 405 "METHOD_NOT_ALLOWED" "Method not allowed", s)
  else
    match L.uuidParse (r.Vars.Get "user_id") with
    | none => (WriteErrorResponse 400 "INVALID_USER_ID" "Invalid user ID format", s)
    | some userID =>
      match L.uuidParse (r.Vars.Get "movie_id") with
      | none => (WriteErrorResponse 400 "INVALID_MOVIE_ID" "Invalid movie ID format", s)
      | some movieID =>
        match saveRepo.RemoveSavedMovie s userID movieID with
        | (some e, s1) =>
          if Contains e "not saved" then
            (WriteErrorResponse 404 ErrorCodeNotSaved "Movie is not saved", s1)
          else
            (WriteErrorResponse 500 "INTERNAL_ERROR" ("Failed to remove saved movie: " ++ e), s1)
        | (none, s1) => (⟨204, Body.empty⟩, s1)

/-- Handler `ListGenres` (GET /genres). -/
def ListGenres {σ : Type} (repo : repository.GenreRepository σ) (r : Request) (s : σ) :
    Response :=
  if r.Method ≠ "GET" then WriteErrorResponse 405 "METHOD_NOT_ALLOWED" "Method not allowed"
  else
    let pp := ParsePaginationParams r.Query
    match pp.err with
    | some pagErr => WriteErrorResponse 400 pagErr.Code pagErr.Message
    | none =>
      match repo.ListGenres s pp.page pp.pageSize with
      | Except.error e =>
        WriteErrorResponse 500 "INTERNAL_ERROR" ("Failed to fetch genres: " ++ e)
      | Except.ok (genres, total) =>
        ⟨200, Body.pagedGenres genres pp.page pp.pageSize total⟩

end handler

/-! ## `internal/middleware/auth_middleware.go` -/

namespace middleware

/-- The key extraction at the head of `APIKeyAuth` (lines 20-31): the `X-API-Key` header,
or, when it is empty, the second part of an `Authorization` header that splits at spaces
into exactly `Bearer` and one more part. -/
def extractAPIKey (r : Request) : String :=
  let apiKey := r.Header.Get "X-API-Key"
  if apiKey = "" then
    let authHeader := r.Header.Get "Authorization"
    if authHeader ≠ "" then
      match SplitSpace authHeader with
      | [p0, p1] => if p0 = "Bearer" then p1 else apiKey
      | _ => apiKey
    else apiKey
  else apiKey

/-- Middleware `APIKeyAuth`, wrapped around the handler `next`. -/
def APIKeyAuth {σ : Type} (repo : repository.UserRepository σ)
    (next : Request → σ → Response × σ) (r : Request) (s : σ) : Response × σ :=
  let apiKey := extractAPIKey r
  if apiKey = "" then (WriteErrorResponse 401 "UNAUTHORIZED" "API key required", s)
  else
    match repo.FindUserByAPIKey s apiKey with
    | Except.error _ => (WriteErrorResponse 401 "UNAUTHORIZED" "Invalid API key", s)
    | Except.ok user => next { r with ctxUserID := some user.ID } s

end middleware

/-! ## Vocabulary of the statements -/

/-- An ASCII letter `A`-`Z` or `a`-`z`. -/
def isASCIILetter (c : Char) : Bool :=
  decide ((65 ≤ c.toNat ∧ c.toNat ≤ 90) ∨ (97 ≤ c.toNat ∧ c.toNat ≤ 122))

/-- Two characters that are the same ASCII letter up to case. -/
def sameLetter (a b : Char) : Prop :=
  isASCIILetter a = true ∧ isASCIILetter b = true ∧
    (a.toNat = b.toNat ∨ a.toNat + 32 = b.toNat ∨ a.toNat = b.toNat + 32)

/-- The second string is a re-casing of the first: both are made of ASCII letters, have the
same length, and agree position by position up to case. -/
def Recasing (c c' : String) : Prop := List.Forall₂ sameLetter c.data c'.data

/-- The pair `(userID, movieID)` has a row in `save_movies`. -/
def Saved (db : Store) (userID movieID : UUID) : Prop :=
  ∃ r ∈ db.save_movies, r.UserID = userID ∧ r.MovieID = movieID

/-- The store with one more `save_movies` row for the pair, stamped with the clock. -/
def withSaved (db : Store) (userID movieID : UUID) : Store :=
  { db with save_movies := db.save_movies ++ [⟨userID, movieID, db.clock⟩] }

/-- Stores reachable from an empty `save_movies` table through the repository operations
`SaveMovie` and `RemoveSavedMovie`, with time passing in between. -/
inductive Reachable : Store → Prop where
  | init (db : Store) : db.save_movies = [] → Reachable db
  | save (db : Store) (userID movieID : UUID) :
      Reachable db → Reachable (repository.SaveMovie db userID movieID).2
  | remove (db : Store) (userID movieID : UUID) :
      Reachable db → Reachable (repository.RemoveSavedMovie db userID movieID).2
  | tick (db : Store) (t : Int) : Reachable db → Reachable { db with clock := t }

/-- A stand-in for the library used to run the embedding on concrete requests: identity
outside ASCII, identifiers written as decimal numbers, the body being the `movie_id`. -/
def demoLib : Lib where
  unicodeUpper := id
  uuidParse := fun s => if s.data = [] then none else parseDigits s.data 0
  uuidString := fun u => toString u
  decodeMovieID := fun b => some b

/-- A store with one user, one movie and its availability in the US. -/
def demoStore : Store :=
  { users := [⟨1, "A", "2000-01-01", "key-1"⟩]
    movies := [⟨7, "T", 1999, none⟩]
    movie_availability := [⟨7, "US"⟩] }

/-- A request `POST /users/1/movies?country=us` with movie 7 in the body. -/
def demoSaveRequest : Request :=
  { Method := "POST", Vars := [("user_id", "1")], Query := [("country", "us")], Body := "7" }

/-- A request `DELETE /users/1/movies/7`. -/
def demoRemoveRequest : Request :=
  { Method := "DELETE", Vars := [("user_id", "1"), ("movie_id", "7")] }

/-- A request carrying `X-API-Key: key-1` and an unrelated `Authorization` header. -/
def demoKeyRequest : Request :=
  { Header := [("X-Api-Key", "key-1"), ("Authorization", "Bearer other")] }

/-- The country filter in force in `movieRepo.ListMovies`: the upper-cased argument when
it is present and non-empty. -/
def countryFilter (L : Lib) (c : Option String) : Option String :=
  match c with
  | none => none
  | some x => if x = "" then none else some (ToUpper L x)

/-- A store in which user 1 has saved movie 9, available in the US, without a `movies` row
for it. -/
def demoOrphanStore : Store :=
  { save_movies := [⟨1, 9, 0⟩], movie_availability := [⟨9, "US"⟩] }

/-- A store with two users, one movie and its availability in the US. -/
def demoTwoUserStore : Store :=
  { users := [⟨1, "A", "2000-01-01", "key-1"⟩, ⟨2, "B", "1990-01-01", "key-2"⟩]
    movies := [⟨7, "T", 1999, none⟩]
    movie_availability := [⟨7, "US"⟩] }

/-- A request `POST /users/2/movies?country=us` for movie 7 that presents the API key of
user 1. -/
def demoForeignRequest : Request :=
  { Method := "POST", Header := [("X-Api-Key", "key-1")], Vars := [("user_id", "2")],
    Query := [("country", "us")], Body := "7" }

/-- A store with a single genre. -/
def demoGenreStore : Store := { genres := [⟨1, "Drama"⟩] }

/-! ## Pagination (ParsePaginationParams, CalculateOffset) -/

/-- `Atoi` rejects the empty string. -/
theorem Atoi_empty : Atoi "" = none := by decide

/-- `wrapInt64` is the identity on the `int64` range. -/
theorem wrapInt64_of_range (x : Int) (h1 : minInt64 ≤ x) (h2 : x ≤ maxInt64) :
    wrapInt64 x = x := by
  unfold wrapInt64
  unfold minInt64 at h1
  unfold maxInt64 at h2
  omega

/-- C1. `ParsePaginationParams` succeeds exactly when `page` is empty/absent or parses
with `Atoi` to an integer at least 1 and `page_size` is empty/absent or parses to an integer
in `[1, 100]`; on success the results are the parsed values, 1 and 20 being the defaults, so
`page ≥ 1` and `1 ≤ page_size ≤ 100`. -/
theorem parsePagination_contract (q : Values) :
    ((ParsePaginationParams q).err = none ↔
      ((q.Get "page" = "" ∨ ∃ n, Atoi (q.Get "page") = some n ∧ 1 ≤ n) ∧
       (q.Get "page_size" = "" ∨
         ∃ n, Atoi (q.Get "page_size") = some n ∧ 1 ≤ n ∧ n ≤ 100))) ∧
    ((ParsePaginationParams q).err = none →
      (q.Get "page" = "" → (ParsePaginationParams q).page = 1) ∧
      (q.Get "page" ≠ "" → Atoi (q.Get "page") = some (ParsePaginationParams q).page) ∧
      (q.Get "page_size" = "" → (ParsePaginationParams q).pageSize = 20) ∧
      (q.Get "page_size" ≠ "" →
        Atoi (q.Get "page_size") = some (ParsePaginationParams q).pageSize) ∧
      1 ≤ (ParsePaginationParams q).page ∧ 1 ≤ (ParsePaginationParams q).pageSize ∧
      (ParsePaginationParams q).pageSize ≤ 100) := by
  unfold ParsePaginationParams ValidatePageSize DefaultPage DefaultPageSize MaxPageSize
  generalize q.Get "page" = a
  generalize q.Get "page_size" = b
  by_cases ha : a = "" <;> by_cases hb : b = ""
  · subst ha; subst hb; simp
  · subst ha
    rcases hy : Atoi b with _ | y
    · simp [hb, hy]
    · by_cases h1 : y < 1
      · simp [hb, hy, h1]
      · by_cases h2 : y > 100
        · simp [hb, hy, h1, h2]
        · simp [hb, hy, h1, h2]; omega
  · subst hb
    rcases hx : Atoi a with _ | x
    · simp [ha, hx]
    · by_cases h1 : x < 1
      · simp [ha, hx, h1]
      · simp [ha, hx, h1]; omega
  · rcases hx : Atoi a with _ | x
    · simp [ha, hx]
    · by_cases h1 : x < 1
      · simp [ha, hx, h1]
      · rcases hy : Atoi b with _ | y
        · simp [ha, hb, hx, hy, h1]
        · by_cases h3 : y < 1
          · simp [ha, hb, hx, hy, h1, h3]
          · by_cases h2 : y > 100
            · simp [ha, hb, hx, hy, h1, h3, h2]
            · simp [ha, hb, hx, hy, h1, h3, h2]; omega

/-- C2, as stated, fails: with `page=0` and `page_size=101` (an integer above 100) the
result is `INVALID_PAGE`, not `PAGE_SIZE_TOO_LARGE`, because `page` is checked first. -/
theorem pageSizeTooLarge_not_whatever_page :
    Atoi "101" = some 101 ∧
    ParsePaginationParams [("page", "0"), ("page_size", "101")] =
      ⟨0, 0, some ⟨"INVALID_PAGE", "page must be a positive integer"⟩⟩ := by
  decide

/-- C2, amended. If `page` is absent/empty or a valid page (parses to an integer at least 1)
and `page_size` parses with `Atoi` to an integer above 100, then `ParsePaginationParams`
fails with `PAGE_SIZE_TOO_LARGE`. -/
theorem pageSizeTooLarge_of_valid_page (q : Values) (n : Int)
    (hpage : q.Get "page" = "" ∨ ∃ p, Atoi (q.Get "page") = some p ∧ 1 ≤ p)
    (hsize : Atoi (q.Get "page_size") = some n) (hn : 100 < n) :
    ParsePaginationParams q =
      ⟨0, 0, some ⟨"PAGE_SIZE_TOO_LARGE", "page_size exceeds maximum allowed value of 100"⟩⟩ := by
  have hb : q.Get "page_size" ≠ "" := by
    intro h
    rw [h, Atoi_empty] at hsize
    exact Option.noConfusion hsize
  have hn1 : ¬ n < 1 := by omega
  unfold ParsePaginationParams ValidatePageSize DefaultPage DefaultPageSize MaxPageSize
  rcases hpage with ha | ⟨p, hp, hp1⟩
  · simp [ha, hb, hsize, hn1, hn]
  · have ha : q.Get "page" ≠ "" := by
      intro h
      rw [h, Atoi_empty] at hp
      exact Option.noConfusion hp
    have hp2 : ¬ p < 1 := by omega
    simp [ha, hb, hp, hsize, hn1, hn, hp2]

/-- Witness of `pageSizeTooLarge_of_valid_page`: `page` absent, `page_size=101`. -/
theorem pageSizeTooLarge_of_valid_page_witness :
    Values.Get [("page_size", "101")] "page" = "" ∧
    Atoi (Values.Get [("page_size", "101")] "page_size") = some 101 ∧
    ParsePaginationParams [("page_size", "101")] =
      ⟨0, 0, some ⟨"PAGE_SIZE_TOO_LARGE", "page_size exceeds maximum allowed value of 100"⟩⟩ :=
  ⟨by decide, by decide,
    pageSizeTooLarge_of_valid_page [("page_size", "101")] 101 (Or.inl (by decide)) (by decide)
      (by decide)⟩

/-- C3. A non-empty `page` that does not parse or parses below 1 gives `INVALID_PAGE`, and
nothing else does; with `page` absent/empty or valid, a non-empty `page_size` that does not
parse or parses below 1 gives `INVALID_PAGE_SIZE`, and nothing else does; both results carry
page 0 and page_size 0. -/
theorem invalid_page_codes (q : Values) :
    ((q.Get "page" ≠ "" ∧
        (Atoi (q.Get "page") = none ∨ ∃ p, Atoi (q.Get "page") = some p ∧ p < 1)) ↔
      ParsePaginationParams q =
        ⟨0, 0, some ⟨"INVALID_PAGE", "page must be a positive integer"⟩⟩) ∧
    (((q.Get "page" = "" ∨ ∃ p, Atoi (q.Get "page") = some p ∧ 1 ≤ p) ∧
        q.Get "page_size" ≠ "" ∧
        (Atoi (q.Get "page_size") = none ∨
          ∃ p, Atoi (q.Get "page_size") = some p ∧ p < 1)) ↔
      ParsePaginationParams q =
        ⟨0, 0, some ⟨"INVALID_PAGE_SIZE", "page_size must be a positive integer"⟩⟩) ∧
    (∀ e, (ParsePaginationParams q).err = some e →
      (ParsePaginationParams q).page = 0 ∧ (ParsePaginationParams q).pageSize = 0) ∧
    (∀ e, (ParsePaginationParams q).err = some e → e.Code = "INVALID_PAGE" →
      q.Get "page" ≠ "" ∧ ∀ p, Atoi (q.Get "page") = some p → p < 1) ∧
    (∀ e, (ParsePaginationParams q).err = some e → e.Code = "INVALID_PAGE_SIZE" →
      q.Get "page_size" ≠ "" ∧ ∀ p, Atoi (q.Get "page_size") = some p → p < 1) := by
  unfold ParsePaginationParams ValidatePageSize DefaultPage DefaultPageSize MaxPageSize
  generalize q.Get "page" = a
  generalize q.Get "page_size" = b
  by_cases ha : a = "" <;> by_cases hb : b = ""
  · subst ha; subst hb; simp
  · subst ha
    rcases hy : Atoi b with _ | y
    · simp [hb, hy]
    · by_cases h1 : y < 1
      · simp [hb, hy, h1]
      · by_cases h2 : y > 100
        · simp [hb, hy, h1, h2]
        · simp [hb, hy, h1, h2]
  · subst hb
    rcases hx : Atoi a with _ | x
    · simp [ha, hx]
    · by_cases h1 : x < 1
      · simp [ha, hx, h1]
      · simp [ha, hx, h1]
  · rcases hx : Atoi a with _ | x
    · simp [ha, hx]
    · by_cases h1 : x < 1
      · simp [ha, hx, h1]
      · rcases hy : Atoi b with _ | y
        · simp [ha, hb, hx, hy, h1]; omega
        · by_cases h3 : y < 1
          · simp [ha, hb, hx, hy, h1, h3]; omega
          · by_cases h2 : y > 100
            · simp [ha, hb, hx, hy, h1, h3, h2]
            · simp [ha, hb, hx, hy, h1, h3, h2]

/-- C4, as stated, fails: `page = 9223372036854775807` with `page_size = 100` is returned
by `ParsePaginationParams`, and there `CalculateOffset` and the repositories' inline offset
wrap around to -200 instead of the exact product. -/
theorem offset_wraps_for_largest_page :
    ParsePaginationParams [("page", "9223372036854775807"), ("page_size", "100")] =
      ⟨9223372036854775807, 100, none⟩ ∧
    CalculateOffset 9223372036854775807 100 = -200 ∧
    repoOffset 9223372036854775807 100 = -200 ∧
    ((9223372036854775807 : Int) - 1) * 100 = 922337203685477580600 := by
  decide

/-- C4, amended. For `page ≥ 1` and `1 ≤ page_size ≤ 100` whose exact product
`(page - 1) * page_size` does not exceed the largest 64-bit signed integer, `CalculateOffset`
and the repositories' inline offset both equal that product, which is non-negative. -/
theorem offset_exact_of_fits (page pageSize : Int) (hp : 1 ≤ page) (hs1 : 1 ≤ pageSize)
    (_hs2 : pageSize ≤ 100) (hfit : (page - 1) * pageSize ≤ maxInt64) :
    CalculateOffset page pageSize = (page - 1) * pageSize ∧
    repoOffset page pageSize = (page - 1) * pageSize ∧
    0 ≤ CalculateOffset page pageSize := by
  have h0 : 0 ≤ page - 1 := by omega
  have hle : page - 1 ≤ (page - 1) * pageSize := le_mul_of_one_le_right h0 hs1
  have hnn : 0 ≤ (page - 1) * pageSize := le_trans h0 hle
  have hmin : minInt64 ≤ 0 := by decide
  have w1 : wrapInt64 (page - 1) = page - 1 :=
    wrapInt64_of_range _ (le_trans hmin h0) (le_trans hle hfit)
  have w2 : wrapInt64 ((page - 1) * pageSize) = (page - 1) * pageSize :=
    wrapInt64_of_range _ (le_trans hmin hnn) hfit
  have hp1 : ¬ page < 1 := by omega
  have e1 : CalculateOffset page pageSize = (page - 1) * pageSize := by
    simp only [CalculateOffset, hp1, if_false, w1, w2]
  have e2 : repoOffset page pageSize = (page - 1) * pageSize := by
    simp only [repoOffset, w1, w2]
  exact ⟨e1, e2, by rw [e1]; exact hnn⟩

/-- Witness of `offset_exact_of_fits`: page 3 of size 20 starts at offset 40. -/
theorem offset_exact_of_fits_witness :
    (1 : Int) ≤ 3 ∧ (1 : Int) ≤ 20 ∧ (20 : Int) ≤ 100 ∧ ((3 : Int) - 1) * 20 ≤ maxInt64 ∧
    CalculateOffset 3 20 = (3 - 1) * 20 ∧ repoOffset 3 20 = (3 - 1) * 20 ∧
    0 ≤ CalculateOffset 3 20 :=
  ⟨by decide, by decide, by decide, by decide,
    offset_exact_of_fits 3 20 (by decide) (by decide) (by decide) (by decide)⟩


/-! ## Country validation and case-insensitivity -/

/-- A list without white space at either end is left alone by the two `dropWhile` passes of
`TrimSpace`. -/
theorem trim_chars_of_no_space (l : List Char) (h : ∀ ch ∈ l, isSpace ch = false) :
    ((l.dropWhile isSpace).reverse.dropWhile isSpace).reverse = l := by
  have d : ∀ (k : List Char), (∀ ch ∈ k, isSpace ch = false) → k.dropWhile isSpace = k := by
    intro k hk
    cases k with
    | nil => rfl
    | cons x xs => simp [List.dropWhile, hk x (List.mem_cons_self x xs)]
  rw [d l h, d l.reverse (fun ch hch => h ch (List.mem_reverse.mp hch)), List.reverse_reverse]

/-- An ASCII letter is not white space. -/
theorem isSpace_of_letter (ch : Char) (h : isASCIILetter ch = true) : isSpace ch = false := by
  unfold isASCIILetter at h
  unfold isSpace
  simp only [decide_eq_true_eq] at h
  simp only [decide_eq_false_iff_not]
  omega

/-- Upper-casing sends the two cases of one ASCII letter to the same character. -/
theorem upperRune_sameLetter (L : Lib) (a b : Char) (h : sameLetter a b) :
    upperRune L a = upperRune L b := by
  obtain ⟨ha, hb, hab⟩ := h
  unfold isASCIILetter at ha hb
  simp only [decide_eq_true_eq] at ha hb
  have ha128 : a.toNat < 128 := by omega
  have hb128 : b.toNat < 128 := by omega
  unfold upperRune
  rw [if_pos ha128, if_pos hb128]
  rcases hab with e | e | e
  · have : a = b := by rw [← Char.ofNat_toNat a, ← Char.ofNat_toNat b, e]
    rw [this]
  · have h1 : ¬ (97 ≤ a.toNat ∧ a.toNat ≤ 122) := by omega
    have h2 : 97 ≤ b.toNat ∧ b.toNat ≤ 122 := by omega
    rw [if_neg h1, if_pos h2]
    have : b.toNat - 32 = a.toNat := by omega
    rw [this, Char.ofNat_toNat]
  · have h1 : 97 ≤ a.toNat ∧ a.toNat ≤ 122 := by omega
    have h2 : ¬ (97 ≤ b.toNat ∧ b.toNat ≤ 122) := by omega
    rw [if_pos h1, if_neg h2]
    have : a.toNat - 32 = b.toNat := by omega
    rw [this, Char.ofNat_toNat]

/-- Position-wise equal letters up to case have the same upper-case image. -/
theorem map_upperRune_sameLetter (L : Lib) (l l' : List Char)
    (h : List.Forall₂ sameLetter l l') : l.map (upperRune L) = l'.map (upperRune L) := by
  induction h with
  | nil => rfl
  | cons hab _ ih => simp only [List.map_cons, upperRune_sameLetter L _ _ hab, ih]

/-- Both sides of a position-wise `sameLetter` relation are made of ASCII letters. -/
theorem letters_of_sameLetter (l l' : List Char) (h : List.Forall₂ sameLetter l l') :
    (∀ ch ∈ l, isASCIILetter ch = true) ∧ (∀ ch ∈ l', isASCIILetter ch = true) := by
  induction h with
  | nil => exact ⟨fun _ hch => (List.not_mem_nil _ hch).elim, fun _ hch => (List.not_mem_nil _ hch).elim⟩
  | cons hab _ ih =>
    constructor
    · intro ch hch
      rcases List.mem_cons.mp hch with e | e
      · rw [e]; exact hab.1
      · exact ih.1 ch e
    · intro ch hch
      rcases List.mem_cons.mp hch with e | e
      · rw [e]; exact hab.2.1
      · exact ih.2 ch e

/-- Re-casings have the same upper-case form. -/
theorem ToUpper_recasing (L : Lib) (c c' : String) (h : Recasing c c') :
    ToUpper L c = ToUpper L c' := by
  unfold ToUpper
  rw [map_upperRune_sameLetter L c.data c'.data h]

/-- A string of ASCII letters is its own `TrimSpace`. -/
theorem TrimSpace_of_letters (c : String) (h : ∀ ch ∈ c.data, isASCIILetter ch = true) :
    TrimSpace c = c := by
  unfold TrimSpace
  rw [trim_chars_of_no_space c.data (fun ch hch => isSpace_of_letter ch (h ch hch))]

/-- Both sides of a re-casing are made of ASCII letters, and one is empty iff the other is. -/
theorem Recasing_facts (c c' : String) (h : Recasing c c') :
    (∀ ch ∈ c.data, isASCIILetter ch = true) ∧ (∀ ch ∈ c'.data, isASCIILetter ch = true) ∧
    (c = "" ↔ c' = "") := by
  refine ⟨(letters_of_sameLetter _ _ h).1, (letters_of_sameLetter _ _ h).2, ?_⟩
  have hl : c.data.length = c'.data.length := List.Forall₂.length_eq h
  constructor
  · intro e
    subst e
    have : c'.data = [] := List.length_eq_zero.mp (by rw [← hl]; rfl)
    exact String.ext this
  · intro e
    subst e
    have : c.data = [] := List.length_eq_zero.mp (by rw [hl]; rfl)
    exact String.ext this

/-- `ParsePaginationParams` reads only the `page` and `page_size` values of the query. -/
theorem ParsePaginationParams_congr (q q' : Values) (h1 : q.Get "page" = q'.Get "page")
    (h2 : q.Get "page_size" = q'.Get "page_size") :
    ParsePaginationParams q = ParsePaginationParams q' := by
  unfold ParsePaginationParams
  rw [h1, h2]

/-- C5, evaluated at its failing input `country=12`: the value is not made of letters, yet
the three handlers accept it (only its length is checked) and hand `"12"` on as the country
code, where the claim requires `INVALID_COUNTRY_CODE`. -/
theorem country_digits_pass_validation (L : Lib) :
    ("12".data.all isASCIILetter) = false ∧
    handler.ListMoviesValidate L { Query := [("country", "12")] } =
      Except.ok ⟨some "12", none, 1, 20, "-year"⟩ ∧
    (∀ uid, L.uuidParse "1" = some uid →
      handler.ListSavedMoviesValidate L
          { Vars := [("user_id", "1")], Query := [("country", "12")] } =
        Except.ok ⟨uid, "12", 1, 20, "-date_added"⟩) ∧
    (∀ uid mid, L.uuidParse "1" = some uid → L.decodeMovieID "b" = some "2" →
      L.uuidParse "2" = some mid →
      handler.SaveMovieValidate L
          { Method := "POST", Vars := [("user_id", "1")], Query := [("country", "12")],
            Body := "b" } =
        Except.ok ⟨uid, "12", mid⟩) := by
  refine ⟨by decide, rfl, ?_, ?_⟩
  · intro uid h
    have h' : L.uuidParse (Values.Get [("user_id", "1")] "user_id") = some uid := h
    simp only [handler.ListSavedMoviesValidate, h']
    rfl
  · intro uid mid h1 h2 h3
    have h' : L.uuidParse (Values.Get [("user_id", "1")] "user_id") = some uid := h1
    simp only [handler.SaveMovieValidate, h', h2, h3]
    rfl

/-- C6. For a country value made of ASCII letters and any re-casing of it, two requests
that differ only in that value get the same validation outcome from the handlers
`ListMovies`, `ListSavedMovies` and `SaveMovie`, and the repository operations `ListMovies`,
`ListSavedMovies` and `IsMovieAvailableInCountry` build the same statements with the same
bound arguments, the country being bound in upper case. -/
theorem country_case_insensitive (L : Lib) (c c' : String) (h : Recasing c c') :
    (∀ r r' : Request, r.Method = r'.Method → r.Vars = r'.Vars → r.Body = r'.Body →
      (∀ k, k ≠ "country" → r.Query.Get k = r'.Query.Get k) →
      r.Query.Get "country" = c → r'.Query.Get "country" = c' →
      handler.ListMoviesValidate L r = handler.ListMoviesValidate L r' ∧
      handler.ListSavedMoviesValidate L r = handler.ListSavedMoviesValidate L r' ∧
      handler.SaveMovieValidate L r = handler.SaveMovieValidate L r') ∧
    (∀ g page pageSize sortBy,
      repository.ListMoviesPlan.build L (some c) g page pageSize sortBy =
        repository.ListMoviesPlan.build L (some c') g page pageSize sortBy) ∧
    (∀ u page pageSize sortBy,
      repository.ListSavedMoviesPlan.build L u c page pageSize sortBy =
        repository.ListSavedMoviesPlan.build L u c' page pageSize sortBy) ∧
    (∀ m, repository.IsMovieAvailableInCountryCall L m c =
        repository.IsMovieAvailableInCountryCall L m c') ∧
    (∀ m, (repository.IsMovieAvailableInCountryCall L m c).args =
        [Arg.uuid m, Arg.str (ToUpper L c)]) ∧
    (∀ u page pageSize sortBy,
      (repository.ListSavedMoviesPlan.build L u c page pageSize sortBy).countQuery.args =
        [Arg.uuid u, Arg.str (ToUpper L c)]) ∧
    (c ≠ "" → ∀ page pageSize sortBy,
      (repository.ListMoviesPlan.build L (some c) none page pageSize sortBy).countQuery.args =
        [Arg.str (ToUpper L c)]) := by
  have hT : ToUpper L c = ToUpper L c' := ToUpper_recasing L c c' h
  obtain ⟨hl, hl', hemp⟩ := Recasing_facts c c' h
  have ht : TrimSpace c = c := TrimSpace_of_letters c hl
  have ht' : TrimSpace c' = c' := TrimSpace_of_letters c' hl'
  refine ⟨?_, ?_, ?_, ?_, ?_, ?_, ?_⟩
  · intro r r' hm hv hb hq hc hc'
    have hpp := ParsePaginationParams_congr r.Query r'.Query (hq "page" (by decide))
      (hq "page_size" (by decide))
    have hg := hq "genre" (by decide)
    have hs := hq "sort" (by decide)
    refine ⟨?_, ?_, ?_⟩
    · unfold handler.ListMoviesValidate
      rw [hm, hpp, hc, hc', ht, ht', hg, hs]
      by_cases e : c = ""
      · have e' := hemp.mp e
        simp [e, e', hT]
      · have e' : ¬ c' = "" := fun x => e (hemp.mpr x)
        simp [e, e', hT]
    · unfold handler.ListSavedMoviesValidate
      rw [hm, hv, hpp, hc, hc', ht, ht', hs]
      by_cases e : c = ""
      · have e' := hemp.mp e
        simp [e, e', hT]
      · have e' : ¬ c' = "" := fun x => e (hemp.mpr x)
        simp [e, e', hT]
    · unfold handler.SaveMovieValidate
      rw [hm, hv, hb, hc, hc', ht, ht']
      by_cases e : c = ""
      · have e' := hemp.mp e
        simp [e, e', hT]
      · have e' : ¬ c' = "" := fun x => e (hemp.mpr x)
        simp [e, e', hT]
  · intro g page pageSize sortBy
    unfold repository.ListMoviesPlan.build
    simp only [Option.getD_some, hT]
    by_cases e : c = ""
    · have e' := hemp.mp e
      simp [e, e']
    · have e' : ¬ c' = "" := fun x => e (hemp.mpr x)
      simp [e, e']
  · intro u page pageSize sortBy
    unfold repository.ListSavedMoviesPlan.build
    rw [hT]
  · intro m
    unfold repository.IsMovieAvailableInCountryCall
    rw [hT]
  · intro m
    rfl
  · intro u page pageSize sortBy
    rfl
  · intro hne page pageSize sortBy
    simp [repository.ListMoviesPlan.build, hne]

/-- Witness of `country_case_insensitive`: `us` and `US`. -/
theorem country_case_insensitive_witness :
    Recasing "us" "US" ∧
    repository.IsMovieAvailableInCountryCall demoLib 7 "us" =
      repository.IsMovieAvailableInCountryCall demoLib 7 "US" ∧
    handler.ListMoviesValidate demoLib { Query := [("country", "us")] } =
      handler.ListMoviesValidate demoLib { Query := [("country", "US")] } :=
  have hrec : Recasing "us" "US" :=
    List.Forall₂.cons ⟨by decide, by decide, by decide⟩
      (List.Forall₂.cons ⟨by decide, by decide, by decide⟩ List.Forall₂.nil)
  ⟨hrec, (country_case_insensitive demoLib "us" "US" hrec).2.2.2.1 7,
    ((country_case_insensitive demoLib "us" "US" hrec).1 { Query := [("country", "us")] }
      { Query := [("country", "US")] } rfl rfl rfl
      (fun k hk => by
        have h1 : ¬ ("country" = k) := fun e => hk e.symm
        simp [Values.Get, List.find?, h1])
      (by decide) (by decide)).1⟩


/-! ## Saving and removing movies on the store -/

/-- The duplicate pre-check of the repository is `Saved`. -/
theorem any_saved_iff (db : Store) (u m : UUID) :
    db.save_movies.any (repository.isPair u m) = true ↔ Saved db u m := by
  simp [Saved, List.any_eq_true, repository.isPair]

/-- Repository `SaveMovie` on a pair that is not saved: one row is appended. -/
theorem repo_SaveMovie_fresh (db : Store) (u m : UUID) (h : ¬ Saved db u m) :
    repository.SaveMovie db u m = (none, withSaved db u m) := by
  have hany : db.save_movies.any (repository.isPair u m) = false := by
    rw [Bool.eq_false_iff]
    intro e
    exact h ((any_saved_iff db u m).mp e)
  simp [repository.SaveMovie, repository.IsMovieSaved, repository.execInsertSaved, hany,
    withSaved]

/-- Repository `SaveMovie` on a saved pair: the duplicate error, nothing written. -/
theorem repo_SaveMovie_saved (db : Store) (u m : UUID) (h : Saved db u m) :
    repository.SaveMovie db u m = (some "movie already saved", db) := by
  have hany := (any_saved_iff db u m).mpr h
  simp [repository.SaveMovie, repository.IsMovieSaved, hany]

/-- After `withSaved` the pair is saved. -/
theorem Saved_withSaved (db : Store) (u m : UUID) : Saved (withSaved db u m) u m :=
  ⟨⟨u, m, db.clock⟩, by simp [withSaved], rfl, rfl⟩

/-- The rows kept by the `DELETE` when the pair is not saved are all the rows. -/
theorem filter_not_saved (db : Store) (u m : UUID) (h : ¬ Saved db u m) :
    (db.save_movies.filter fun r => !repository.isPair u m r) = db.save_movies := by
  rw [List.filter_eq_self]
  intro r hr
  have : ¬ (r.UserID = u ∧ r.MovieID = m) := fun e => h ⟨r, hr, e⟩
  simp [repository.isPair, this]

/-- Repository `RemoveSavedMovie` on a pair that is not saved. -/
theorem repo_Remove_not_saved (db : Store) (u m : UUID) (h : ¬ Saved db u m) :
    repository.RemoveSavedMovie db u m = (some "movie not saved", db) := by
  simp [repository.RemoveSavedMovie, repository.execDeleteSaved, filter_not_saved db u m h]

/-- Repository `RemoveSavedMovie` on a saved pair: its rows, and only they, are deleted. -/
theorem repo_Remove_saved (db : Store) (u m : UUID) (h : Saved db u m) :
    repository.RemoveSavedMovie db u m =
      (none, { db with save_movies :=
        db.save_movies.filter fun r => !repository.isPair u m r }) := by
  obtain ⟨r, hr, hru⟩ := h
  have hlt : (db.save_movies.filter fun r => !repository.isPair u m r).length <
      db.save_movies.length := by
    apply List.length_filter_lt_length_iff_exists.mpr
    exact ⟨r, hr, by simp [repository.isPair, hru]⟩
  have hne : db.save_movies.length -
      (db.save_movies.filter fun r => !repository.isPair u m r).length ≠ 0 := by
    omega
  simp [repository.RemoveSavedMovie, repository.execDeleteSaved, hne]

/-- Repository `GetMovieByID` when no row has the id. -/
theorem repo_GetMovieByID_none (db : Store) (id : UUID) (h : ∀ m ∈ db.movies, m.ID ≠ id) :
    repository.GetMovieByID db id = Except.error "movie not found" := by
  have : db.movies.find? (fun m => decide (m.ID = id)) = none := by
    rw [List.find?_eq_none]
    intro m hm
    simpa using h m hm
  simp [repository.GetMovieByID, this]

/-- `Contains` finds `already saved` in the repository's duplicate error. -/
theorem contains_already_saved : Contains "movie already saved" "already saved" = true := by
  decide

/-- `Contains` finds `not saved` in the repository's not-saved error. -/
theorem contains_not_saved : Contains "movie not saved" "not saved" = true := by
  decide

/-- C7. For a `SaveMovie` request that passes validation (valid `user_id`, country and
`movie_id`), on the store: no movie row with the id gives 404 `MOVIE_NOT_FOUND`; a movie
without an availability row for the upper-cased country gives 422 `UNAVAILABLE_IN_COUNTRY`;
an available movie already saved by the user gives 409 `DUPLICATE_SAVE`; in these three
cases the store is unchanged; otherwise one `save_movies` row is appended and the response
is 200 with the id, title and year of the movie. -/
theorem saveMovie_handler_outcomes (L : Lib) (r : Request) (db : Store)
    (a : handler.SaveMovieArgs) (hreq : handler.SaveMovieValidate L r = Except.ok a) :
    ((∀ m ∈ db.movies, m.ID ≠ a.movieID) →
      handler.SaveMovie L (repository.saveMoviesRepo L) (repository.movieRepo L) r db =
        (⟨404, Body.error "MOVIE_NOT_FOUND" "Movie not found"⟩, db)) ∧
    (∀ movie, db.movies.find? (fun m => decide (m.ID = a.movieID)) = some movie →
      ((∀ av ∈ db.movie_availability,
          ¬ (av.MovieID = a.movieID ∧ av.CountryCode = ToUpper L a.countryCode)) →
        handler.SaveMovie L (repository.saveMoviesRepo L) (repository.movieRepo L) r db =
          (⟨422, Body.error "UNAVAILABLE_IN_COUNTRY"
            "Movie is not available in the specified country"⟩, db)) ∧
      ((∃ av ∈ db.movie_availability,
          av.MovieID = a.movieID ∧ av.CountryCode = ToUpper L a.countryCode) →
        (Saved db a.userID a.movieID →
          handler.SaveMovie L (repository.saveMoviesRepo L) (repository.movieRepo L) r db =
            (⟨409, Body.error "DUPLICATE_SAVE" "Movie is already saved"⟩, db)) ∧
        (¬ Saved db a.userID a.movieID →
          handler.SaveMovie L (repository.saveMoviesRepo L) (repository.movieRepo L) r db =
            (⟨200, Body.movie (L.uuidString movie.ID) movie.Title movie.Year⟩,
              { db with save_movies :=
                db.save_movies ++ [⟨a.userID, a.movieID, db.clock⟩] }) ∧
          movie.ID = a.movieID))) := by
  refine ⟨?_, ?_⟩
  · intro hno
    simp [handler.SaveMovie, hreq, repository.movieRepo, repo_GetMovieByID_none db _ hno,
      WriteErrorResponse]
  · intro movie hfind
    have hget : repository.GetMovieByID db a.movieID = Except.ok movie := by
      simp [repository.GetMovieByID, hfind]
    refine ⟨?_, ?_⟩
    · intro hun
      have hav : repository.IsMovieAvailableInCountry L db a.movieID a.countryCode =
          Except.ok false := by
        unfold repository.IsMovieAvailableInCountry
        congr 1
        rw [Bool.eq_false_iff]
        intro e
        obtain ⟨av, hav, hp⟩ := List.any_eq_true.mp e
        exact hun av hav (of_decide_eq_true hp)
      simp [handler.SaveMovie, hreq, repository.movieRepo, hget, hav,
        handler.ErrorCodeUnavailableInCountry, WriteErrorResponse]
    · intro hex
      have hav : repository.IsMovieAvailableInCountry L db a.movieID a.countryCode =
          Except.ok true := by
        unfold repository.IsMovieAvailableInCountry
        congr 1
        obtain ⟨av, hav, hp⟩ := hex
        exact List.any_eq_true.mpr ⟨av, hav, decide_eq_true hp⟩
      refine ⟨?_, ?_⟩
      · intro hs
        simp [handler.SaveMovie, hreq, repository.movieRepo, hget, hav,
          repository.saveMoviesRepo, repo_SaveMovie_saved db _ _ hs, contains_already_saved,
          handler.ErrorCodeDuplicateSave, WriteErrorResponse]
      · intro hs
        have hget1 : repository.GetMovieByID (withSaved db a.userID a.movieID) a.movieID =
            Except.ok movie := by
          simp [repository.GetMovieByID, withSaved, hfind]
        refine ⟨?_, ?_⟩
        · simp [handler.SaveMovie, hreq, repository.movieRepo, hget, hav,
            repository.saveMoviesRepo, repo_SaveMovie_fresh db _ _ hs, hget1]
          rfl
        · have := List.find?_some hfind
          simpa using this

/-- The number of rows of a pair is unchanged by appending a row of another pair and grows
by one with a row of the pair. -/
theorem count_withSaved (db : Store) (u m u' m' : UUID) :
    ((withSaved db u m).save_movies.filter (repository.isPair u' m')).length =
      (db.save_movies.filter (repository.isPair u' m')).length +
        (if u = u' ∧ m = m' then 1 else 0) := by
  by_cases h : u = u' ∧ m = m'
  · simp [withSaved, List.filter_append, repository.isPair, h]
  · simp [withSaved, List.filter_append, repository.isPair, h]

/-- A pair that is not saved has no rows. -/
theorem count_of_not_saved (db : Store) (u m : UUID) (h : ¬ Saved db u m) :
    (db.save_movies.filter (repository.isPair u m)).length = 0 := by
  rw [List.length_eq_zero, List.filter_eq_nil_iff]
  intro r hr hp
  exact h ⟨r, hr, by simpa [repository.isPair] using hp⟩

/-- Every reachable store holds at most one row per pair. -/
theorem reachable_unique (db : Store) (h : Reachable db) (u m : UUID) :
    (db.save_movies.filter (repository.isPair u m)).length ≤ 1 := by
  induction h with
  | init db h0 => simp [h0]
  | save db u1 m1 _ ih =>
    by_cases hs : Saved db u1 m1
    · rw [repo_SaveMovie_saved db u1 m1 hs]
      exact ih
    · rw [repo_SaveMovie_fresh db u1 m1 hs]
      show ((withSaved db u1 m1).save_movies.filter (repository.isPair u m)).length ≤ 1
      rw [count_withSaved]
      by_cases e : u1 = u ∧ m1 = m
      · obtain ⟨e1, e2⟩ := e
        subst e1; subst e2
        rw [count_of_not_saved db u1 m1 hs]
        simp
      · rw [if_neg e]
        exact ih
  | remove db u1 m1 _ ih =>
    by_cases hs : Saved db u1 m1
    · rw [repo_Remove_saved db u1 m1 hs]
      show ((db.save_movies.filter fun r => !repository.isPair u1 m1 r).filter
        (repository.isPair u m)).length ≤ 1
      rw [List.filter_comm]
      exact le_trans (List.length_filter_le _ _) ih
    · rw [repo_Remove_not_saved db u1 m1 hs]
      exact ih
  | tick db t _ ih => exact ih

/-- C8. From a store in which `(u, m)` is not saved, repository `SaveMovie` succeeds and
appends exactly one row for `(u, m)`; repeated at once it fails with `movie already saved`
(which the handler recognises as a duplicate save) and leaves the store unchanged; every
store reachable through `SaveMovie` and `RemoveSavedMovie` has at most one row per pair. -/
theorem saveMovie_repo_unique (db : Store) (u m : UUID) :
    (¬ Saved db u m →
      repository.SaveMovie db u m =
        (none, { db with save_movies := db.save_movies ++ [⟨u, m, db.clock⟩] }) ∧
      repository.SaveMovie (repository.SaveMovie db u m).2 u m =
        (some "movie already saved", (repository.SaveMovie db u m).2) ∧
      Contains "movie already saved" "already saved" = true) ∧
    (Reachable db →
      (db.save_movies.filter fun r => decide (r.UserID = u ∧ r.MovieID = m)).length ≤ 1) := by
  refine ⟨?_, ?_⟩
  · intro h
    refine ⟨repo_SaveMovie_fresh db u m h, ?_, contains_already_saved⟩
    rw [repo_SaveMovie_fresh db u m h]
    exact repo_SaveMovie_saved _ u m (Saved_withSaved db u m)
  · intro h
    exact reachable_unique db h u m

/-- C9. For a well-formed `DELETE` request for `(u, m)`: when the pair is not saved the
repository fails with `movie not saved`, the handler answers 404 `NOT_SAVED` and the store is
unchanged; after a successful save the removal answers 204 without a body and gives back the
store as it was before the save, and one more removal answers 404 `NOT_SAVED`; in general a
successful removal deletes the rows of `(u, m)` and no other row. -/
theorem removeSavedMovie_outcomes (L : Lib) (r : Request) (db : Store) (u m : UUID)
    (hmethod : r.Method = "DELETE") (hu : L.uuidParse (r.Vars.Get "user_id") = some u)
    (hm : L.uuidParse (r.Vars.Get "movie_id") = some m) :
    (¬ Saved db u m →
      repository.RemoveSavedMovie db u m = (some "movie not saved", db) ∧
      handler.RemoveSavedMovie L (repository.saveMoviesRepo L) r db =
        (⟨404, Body.error "NOT_SAVED" "Movie is not saved"⟩, db)) ∧
    (¬ Saved db u m →
      repository.SaveMovie db u m = (none, withSaved db u m) ∧
      handler.RemoveSavedMovie L (repository.saveMoviesRepo L) r (withSaved db u m) =
        (⟨204, Body.empty⟩, db) ∧
      handler.RemoveSavedMovie L (repository.saveMoviesRepo L) r db =
        (⟨404, Body.error "NOT_SAVED" "Movie is not saved"⟩, db)) ∧
    (Saved db u m →
      handler.RemoveSavedMovie L (repository.saveMoviesRepo L) r db =
        (⟨204, Body.empty⟩, (repository.RemoveSavedMovie db u m).2) ∧
      ¬ Saved (repository.RemoveSavedMovie db u m).2 u m ∧
      ∀ row, row ∈ (repository.RemoveSavedMovie db u m).2.save_movies ↔
        row ∈ db.save_movies ∧ ¬ (row.UserID = u ∧ row.MovieID = m)) := by
  have hmeth : ¬ r.Method ≠ "DELETE" := fun h => h hmethod
  have h404 : ¬ Saved db u m →
      handler.RemoveSavedMovie L (repository.saveMoviesRepo L) r db =
        (⟨404, Body.error "NOT_SAVED" "Movie is not saved"⟩, db) := by
    intro h
    simp [handler.RemoveSavedMovie, hmethod, hu, hm, repository.saveMoviesRepo,
      repo_Remove_not_saved db u m h, contains_not_saved, handler.ErrorCodeNotSaved,
      WriteErrorResponse]
  refine ⟨fun h => ⟨repo_Remove_not_saved db u m h, h404 h⟩, ?_, ?_⟩
  · intro h
    refine ⟨repo_SaveMovie_fresh db u m h, ?_, h404 h⟩
    have hrm : repository.RemoveSavedMovie (withSaved db u m) u m = (none, db) := by
      rw [repo_Remove_saved _ u m (Saved_withSaved db u m)]
      have : ((withSaved db u m).save_movies.filter fun r => !repository.isPair u m r) =
          db.save_movies := by
        have e1 : (withSaved db u m).save_movies =
            db.save_movies ++ [⟨u, m, db.clock⟩] := rfl
        rw [e1, List.filter_append, filter_not_saved db u m h]
        simp [repository.isPair]
      rw [this]
      rfl
    simp [handler.RemoveSavedMovie, hmethod, hu, hm, repository.saveMoviesRepo, hrm]
  · intro h
    rw [repo_Remove_saved db u m h]
    refine ⟨?_, ?_, ?_⟩
    · simp [handler.RemoveSavedMovie, hmethod, hu, hm, repository.saveMoviesRepo,
        repo_Remove_saved db u m h]
    · rintro ⟨row, hrow, hp⟩
      have hk := (List.mem_filter.mp hrow).2
      simp [repository.isPair, hp.1, hp.2] at hk
    · intro row
      show row ∈ (db.save_movies.filter fun r => !repository.isPair u m r) ↔ _
      rw [List.mem_filter]
      simp only [repository.isPair, Bool.not_eq_true', decide_eq_false_iff_not]

/-! ## API-key authentication -/

/-- A list without the separator is a single part. -/
theorem splitChars_of_not_mem (sep : Char) (l : List Char) (h : sep ∉ l) :
    splitChars sep l = [l] := by
  induction l with
  | nil => rfl
  | cons c cs ih =>
    have hc : ¬ c = sep := fun e => h (by rw [e]; exact List.mem_cons_self _ _)
    have hcs : sep ∉ cs := fun e => h (List.mem_cons_of_mem _ e)
    simp [splitChars, hc, ih hcs]

/-- Splitting after a separator-free prefix. -/
theorem splitChars_append (sep : Char) (a b : List Char) (h : sep ∉ a) :
    splitChars sep (a ++ sep :: b) = a :: splitChars sep b := by
  induction a with
  | nil => simp [splitChars]
  | cons c cs ih =>
    have hc : ¬ c = sep := fun e => h (by rw [e]; exact List.mem_cons_self _ _)
    have hcs : sep ∉ cs := fun e => h (List.mem_cons_of_mem _ e)
    simp [splitChars, hc, ih hcs]

/-- A split has at least one part. -/
theorem splitChars_ne_nil (sep : Char) (l : List Char) : splitChars sep l ≠ [] := by
  cases l with
  | nil => simp [splitChars]
  | cons c cs =>
    unfold splitChars
    split
    · simp
    · split <;> simp

/-- A split with a single part: the input has no separator. -/
theorem splitChars_one (sep : Char) (l q : List Char) (h : splitChars sep l = [q]) :
    l = q ∧ sep ∉ q := by
  induction l generalizing q with
  | nil =>
    simp [splitChars] at h
    subst h
    simp
  | cons c cs ih =>
    by_cases hc : c = sep
    · simp [splitChars, hc] at h
      cases hcs : splitChars sep cs with
      | nil => exact absurd hcs (splitChars_ne_nil sep cs)
      | cons p ps => rw [hcs] at h; simp at h
    · cases hcs : splitChars sep cs with
      | nil =>
        exact absurd hcs (splitChars_ne_nil sep cs)
      | cons p ps =>
        simp [splitChars, hc, hcs] at h
        obtain ⟨h1, h2⟩ := h
        subst h2
        obtain ⟨e1, e2⟩ := ih p hcs
        subst h1
        subst e1
        refine ⟨rfl, ?_⟩
        intro hm
        rcases List.mem_cons.mp hm with e | e
        · exact hc e.symm
        · exact e2 e

/-- A split with exactly two parts: the input is the parts around one separator. -/
theorem splitChars_two (sep : Char) (l q0 q1 : List Char) (h : splitChars sep l = [q0, q1]) :
    l = q0 ++ sep :: q1 ∧ sep ∉ q0 ∧ sep ∉ q1 := by
  induction l generalizing q0 with
  | nil => simp [splitChars] at h
  | cons c cs ih =>
    by_cases hc : c = sep
    · simp [splitChars, hc] at h
      obtain ⟨h1, h2⟩ := h
      obtain ⟨e1, e2⟩ := splitChars_one sep cs q1 h2
      subst h1
      subst e1
      subst hc
      exact ⟨rfl, by simp, e2⟩
    · cases hcs : splitChars sep cs with
      | nil => exact absurd hcs (splitChars_ne_nil sep cs)
      | cons p ps =>
        simp [splitChars, hc, hcs] at h
        obtain ⟨h1, h2⟩ := h
        subst h2
        obtain ⟨e1, e2, e3⟩ := ih p hcs
        subst h1
        refine ⟨by rw [e1]; rfl, ?_, e3⟩
        intro hm
        rcases List.mem_cons.mp hm with e | e
        · exact hc e.symm
        · exact e2 e

/-- With an empty `X-API-Key` header, a header `Authorization: Bearer k` with a space-free
`k` yields `k`. -/
theorem extractAPIKey_bearer (r : Request) (k : String) (hx : r.Header.Get "X-API-Key" = "")
    (ha : r.Header.Get "Authorization" = "Bearer " ++ k) (hk : ' ' ∉ k.data) :
    middleware.extractAPIKey r = k := by
  have hne : ¬ ("Bearer " ++ k = "") := by
    intro e
    have := congrArg String.data e
    simp at this
  have hsplit : SplitSpace ("Bearer " ++ k) = ["Bearer", k] := by
    unfold SplitSpace
    have hd : ("Bearer " ++ k).data = "Bearer".data ++ ' ' :: k.data := by
      rw [String.data_append]
      rfl
    rw [hd, splitChars_append ' ' "Bearer".data k.data (by decide),
      splitChars_of_not_mem ' ' k.data hk]
    rfl
  unfold middleware.extractAPIKey
  simp only [hx, ha, hsplit, if_true, ne_eq, hne, not_false_eq_true]

/-- With an empty `X-API-Key` header and an `Authorization` header that is not `Bearer `
followed by a space-free key, no key is extracted. -/
theorem extractAPIKey_malformed (r : Request) (hx : r.Header.Get "X-API-Key" = "")
    (ha : ¬ ∃ k : String, r.Header.Get "Authorization" = "Bearer " ++ k ∧ ' ' ∉ k.data) :
    middleware.extractAPIKey r = "" := by
  unfold middleware.extractAPIKey
  simp only [hx, if_true]
  split
  · rename_i hne
    split
    · rename_i p0 p1 hsplit
      split
      · rename_i hp0
        exfalso
        apply ha
        refine ⟨p1, ?_, ?_⟩
        · unfold SplitSpace at hsplit
          cases hl : splitChars ' ' (r.Header.Get "Authorization").data with
          | nil => exact absurd hl (splitChars_ne_nil _ _)
          | cons q0 qs =>
            cases qs with
            | nil => rw [hl] at hsplit; simp at hsplit
            | cons q1 qs1 =>
              cases qs1 with
              | cons _ _ => rw [hl] at hsplit; simp at hsplit
              | nil =>
                rw [hl] at hsplit
                simp only [List.map_cons, List.map_nil, List.cons.injEq, and_true] at hsplit
                obtain ⟨e0, e1⟩ := hsplit
                obtain ⟨f1, _, _⟩ := splitChars_two ' ' _ q0 q1 hl
                apply String.ext
                have hq0 : q0 = "Bearer".data := by
                  have := congrArg String.data (e0.trans hp0)
                  exact this
                rw [f1, String.data_append, ← e1, hq0]
                rfl
        · unfold SplitSpace at hsplit
          cases hl : splitChars ' ' (r.Header.Get "Authorization").data with
          | nil => exact absurd hl (splitChars_ne_nil _ _)
          | cons q0 qs =>
            cases qs with
            | nil => rw [hl] at hsplit; simp at hsplit
            | cons q1 qs1 =>
              cases qs1 with
              | cons _ _ => rw [hl] at hsplit; simp at hsplit
              | nil =>
                rw [hl] at hsplit
                simp only [List.map_cons, List.map_nil, List.cons.injEq, and_true] at hsplit
                obtain ⟨_, e1⟩ := hsplit
                obtain ⟨_, _, f3⟩ := splitChars_two ' ' _ q0 q1 hl
                rw [← e1]
                exact f3
      · rfl
    · rfl
  · rfl

/-- C10. `APIKeyAuth` takes the key from `X-API-Key` when that header is non-empty
(whatever the `Authorization` header is), otherwise from an `Authorization` header of the
form `Bearer ` followed by a key without spaces, and otherwise has no key; it passes the
request, with the id of the found user, on to the protected handler when the key is
non-empty and a user with exactly that stored key exists, and in every other case answers
401 `UNAUTHORIZED` without a call of the protected handler. -/
theorem apiKeyAuth_outcomes (next : Request → Store → Response × Store) (r : Request)
    (db : Store) :
    (r.Header.Get "X-API-Key" ≠ "" →
      middleware.extractAPIKey r = r.Header.Get "X-API-Key" ∧
      ∀ r' : Request, r'.Header.Get "X-API-Key" = r.Header.Get "X-API-Key" →
        middleware.extractAPIKey r' = middleware.extractAPIKey r) ∧
    (r.Header.Get "X-API-Key" = "" →
      (∀ k : String, r.Header.Get "Authorization" = "Bearer " ++ k → ' ' ∉ k.data →
        middleware.extractAPIKey r = k) ∧
      ((¬ ∃ k : String, r.Header.Get "Authorization" = "Bearer " ++ k ∧ ' ' ∉ k.data) →
        middleware.extractAPIKey r = "")) ∧
    (∀ user, middleware.extractAPIKey r ≠ "" →
      db.users.find? (fun u => decide (u.APIKeyHash = middleware.extractAPIKey r)) = some user →
      user ∈ db.users ∧ user.APIKeyHash = middleware.extractAPIKey r ∧
      middleware.APIKeyAuth repository.userRepo next r db =
        next { r with ctxUserID := some user.ID } db) ∧
    (middleware.extractAPIKey r = "" →
      middleware.APIKeyAuth repository.userRepo next r db =
        (⟨401, Body.error "UNAUTHORIZED" "API key required"⟩, db)) ∧
    (middleware.extractAPIKey r ≠ "" →
      (∀ u ∈ db.users, u.APIKeyHash ≠ middleware.extractAPIKey r) →
      middleware.APIKeyAuth repository.userRepo next r db =
        (⟨401, Body.error "UNAUTHORIZED" "Invalid API key"⟩, db)) := by
  have hkey : ∀ q : Request, q.Header.Get "X-API-Key" ≠ "" →
      middleware.extractAPIKey q = q.Header.Get "X-API-Key" := by
    intro q hq
    unfold middleware.extractAPIKey
    simp only [hq, if_false]
  refine ⟨?_, ?_, ?_, ?_, ?_⟩
  · intro hx
    refine ⟨hkey r hx, ?_⟩
    intro r' hr'
    rw [hkey r hx, hkey r' (by rw [hr']; exact hx), hr']
  · intro hx
    exact ⟨fun k ha hk => extractAPIKey_bearer r k hx ha hk,
      fun hno => extractAPIKey_malformed r hx hno⟩
  · intro user hk hfind
    have hmem : user ∈ db.users := List.mem_of_find?_eq_some hfind
    have hp : user.APIKeyHash = middleware.extractAPIKey r := by
      have := List.find?_some hfind
      simpa using this
    refine ⟨hmem, hp, ?_⟩
    simp [middleware.APIKeyAuth, hk, repository.userRepo, repository.FindUserByAPIKey, hfind]
  · intro hk
    simp [middleware.APIKeyAuth, hk, WriteErrorResponse]
  · intro hk hno
    have hfind : db.users.find? (fun u => decide (u.APIKeyHash = middleware.extractAPIKey r)) =
        none := by
      rw [List.find?_eq_none]
      intro u hu
      simpa using hno u hu
    simp [middleware.APIKeyAuth, hk, repository.userRepo, repository.FindUserByAPIKey, hfind,
      WriteErrorResponse]

/-- Witness of `saveMovie_handler_outcomes`: user 1 saves movie 7, available in the US. -/
theorem saveMovie_handler_outcomes_witness :
    handler.SaveMovieValidate demoLib demoSaveRequest = Except.ok ⟨1, "US", 7⟩ ∧
    handler.SaveMovie demoLib (repository.saveMoviesRepo demoLib) (repository.movieRepo demoLib)
        demoSaveRequest demoStore =
      (⟨200, Body.movie (demoLib.uuidString 7) "T" 1999⟩,
        { demoStore with save_movies := demoStore.save_movies ++ [⟨1, 7, demoStore.clock⟩] }) :=
  ⟨rfl,
    ((((saveMovie_handler_outcomes demoLib demoSaveRequest demoStore ⟨1, "US", 7⟩ rfl).2
      ⟨7, "T", 1999, none⟩ rfl).2
      ⟨⟨7, "US"⟩, by simp [demoStore], rfl, rfl⟩).2 (by simp [Saved, demoStore])).1⟩

/-- Witness of `saveMovie_repo_unique`: the first save on the demo store. -/
theorem saveMovie_repo_unique_witness :
    ¬ Saved demoStore 1 7 ∧
    repository.SaveMovie demoStore 1 7 =
      (none, { demoStore with save_movies := demoStore.save_movies ++ [⟨1, 7, demoStore.clock⟩] }) ∧
    Reachable demoStore :=
  ⟨by simp [Saved, demoStore],
    ((saveMovie_repo_unique demoStore 1 7).1 (by simp [Saved, demoStore])).1,
    Reachable.init demoStore rfl⟩

/-- Witness of `removeSavedMovie_outcomes`: removing movie 7 right after saving it. -/
theorem removeSavedMovie_outcomes_witness :
    demoRemoveRequest.Method = "DELETE" ∧
    demoLib.uuidParse (demoRemoveRequest.Vars.Get "user_id") = some 1 ∧
    demoLib.uuidParse (demoRemoveRequest.Vars.Get "movie_id") = some 7 ∧
    ¬ Saved demoStore 1 7 ∧
    handler.RemoveSavedMovie demoLib (repository.saveMoviesRepo demoLib) demoRemoveRequest
        (withSaved demoStore 1 7) = (⟨204, Body.empty⟩, demoStore) :=
  ⟨rfl, rfl, rfl, by simp [Saved, demoStore],
    ((removeSavedMovie_outcomes demoLib demoRemoveRequest demoStore 1 7 rfl rfl rfl).2.1
      (by simp [Saved, demoStore])).2.1⟩

/-- Witness of `apiKeyAuth_outcomes`: the key of user 1 in `X-API-Key` admits the request
as user 1, the `Authorization` header being ignored. -/
theorem apiKeyAuth_outcomes_witness :
    middleware.extractAPIKey demoKeyRequest = "key-1" ∧
    ∀ next : Request → Store → Response × Store,
      middleware.APIKeyAuth repository.userRepo next demoKeyRequest demoStore =
        next { demoKeyRequest with ctxUserID := some 1 } demoStore :=
  ⟨rfl, fun next =>
    ((apiKeyAuth_outcomes next demoKeyRequest demoStore).2.2.1 ⟨1, "A", "2000-01-01", "key-1"⟩
      (by decide) rfl).2.2⟩


/-! ## Sort parameter -/

/-- A request accepted by `ListMoviesValidate` has an empty, `year` or `-year` sort value,
and the sort descriptor handed on is `-year` for the empty one and the value otherwise. -/
theorem ListMoviesValidate_ok_sort (L : Lib) (r : Request) (a : handler.ListMoviesArgs)
    (h : handler.ListMoviesValidate L r = Except.ok a) :
    (TrimSpace (r.Query.Get "sort") = "" ∧ a.sortBy = "-year") ∨
    (TrimSpace (r.Query.Get "sort") = "year" ∧ a.sortBy = "year") ∨
    (TrimSpace (r.Query.Get "sort") = "-year" ∧ a.sortBy = "-year") := by
  unfold handler.ListMoviesValidate at h
  split at h
  · exact Except.noConfusion h
  · simp only at h
    split at h
    · exact Except.noConfusion h
    · split at h
      · exact Except.noConfusion h
      · split at h
        · exact Except.noConfusion h
        · split at h
          · rename_i hs
            injection h with h
            subst h
            exact Or.inl ⟨hs, rfl⟩
          · split at h
            · exact Except.noConfusion h
            · rename_i hs1 hs2
              injection h with h
              subst h
              simp only [ne_eq, not_and_or, not_not] at hs2
              rcases hs2 with e | e
              · exact Or.inr (Or.inl ⟨e, e⟩)
              · exact Or.inr (Or.inr ⟨e, e⟩)

/-- A request accepted by `ListSavedMoviesValidate` has an empty, `date_added` or
`-date_added` sort value, and the sort descriptor handed on is `-date_added` for the empty
one and the value otherwise. -/
theorem ListSavedMoviesValidate_ok_sort (L : Lib) (r : Request)
    (a : handler.ListSavedMoviesArgs) (h : handler.ListSavedMoviesValidate L r = Except.ok a) :
    (TrimSpace (r.Query.Get "sort") = "" ∧ a.sortBy = "-date_added") ∨
    (TrimSpace (r.Query.Get "sort") = "date_added" ∧ a.sortBy = "date_added") ∨
    (TrimSpace (r.Query.Get "sort") = "-date_added" ∧ a.sortBy = "-date_added") := by
  unfold handler.ListSavedMoviesValidate at h
  split at h
  · exact Except.noConfusion h
  · split at h
    · exact Except.noConfusion h
    · simp only at h
      split at h
      · exact Except.noConfusion h
      · split at h
        · exact Except.noConfusion h
        · split at h
          · exact Except.noConfusion h
          · split at h
            · rename_i hs
              injection h with h
              subst h
              exact Or.inl ⟨hs, rfl⟩
            · split at h
              · exact Except.noConfusion h
              · rename_i hs1 hs2
                injection h with h
                subst h
                simp only [ne_eq, not_and_or, not_not] at hs2
                rcases hs2 with e | e
                · exact Or.inr (Or.inl ⟨e, e⟩)
                · exact Or.inr (Or.inr ⟨e, e⟩)

/-- The text of the page query of `movieRepo.ListMovies`, in terms of the clauses of the
plan; the two placeholders of `LIMIT` and `OFFSET` follow those of the count query. -/
theorem ListMoviesPlan_query_text (L : Lib) (c : Option String) (g : Option UUID)
    (page pageSize : Int) (sortBy : String) :
    (repository.ListMoviesPlan.build L c g page pageSize sortBy).query.query =
      "\n\t\tSELECT DISTINCT m.id, m.title, m.year, m.genre_id \n\t\t" ++
        (repository.ListMoviesPlan.build L c g page pageSize sortBy).fromClause ++
        " \n\t\t" ++ (repository.ListMoviesPlan.build L c g page pageSize sortBy).whereClause ++
        " \n\t\t" ++ (repository.ListMoviesPlan.build L c g page pageSize sortBy).sortClause ++
        " \n\t\tLIMIT $" ++
        toString ((repository.ListMoviesPlan.build L c g page pageSize
          sortBy).countQuery.args.length + 1) ++
        " OFFSET $" ++
        toString ((repository.ListMoviesPlan.build L c g page pageSize
          sortBy).countQuery.args.length + 2) ++ "\n\t" := by
  cases g <;> cases c with
  | none => rfl
  | some c => by_cases h : c = "" <;> simp [repository.ListMoviesPlan.build, h]

/-- The text of the count query of `movieRepo.ListMovies`, in terms of the clauses. -/
theorem ListMoviesPlan_count_text (L : Lib) (c : Option String) (g : Option UUID)
    (page pageSize : Int) (sortBy : String) :
    (repository.ListMoviesPlan.build L c g page pageSize sortBy).countQuery.query =
      "SELECT COUNT(DISTINCT m.id) " ++
        (repository.ListMoviesPlan.build L c g page pageSize sortBy).fromClause ++ " " ++
        (repository.ListMoviesPlan.build L c g page pageSize sortBy).whereClause := by
  cases g <;> cases c with
  | none => rfl
  | some c => by_cases h : c = "" <;> simp [repository.ListMoviesPlan.build, h]

/-- The arguments of the page query of `movieRepo.ListMovies` are those of the count query
followed by the page size and the offset. -/
theorem ListMoviesPlan_args (L : Lib) (c : Option String) (g : Option UUID)
    (page pageSize : Int) (sortBy : String) :
    (repository.ListMoviesPlan.build L c g page pageSize sortBy).query.args =
      (repository.ListMoviesPlan.build L c g page pageSize sortBy).countQuery.args ++
        [Arg.int pageSize,
          Arg.int (repository.ListMoviesPlan.build L c g page pageSize sortBy).offset] := by
  cases g <;> cases c with
  | none => rfl
  | some c => by_cases h : c = "" <;> simp [repository.ListMoviesPlan.build, h]

/-- The sort clause of `movieRepo.ListMovies`: ascending for `year` only. -/
theorem ListMoviesPlan_sortClause (L : Lib) (c : Option String) (g : Option UUID)
    (page pageSize : Int) (sortBy : String) :
    (repository.ListMoviesPlan.build L c g page pageSize sortBy).sortClause =
      if sortBy = "year" then "ORDER BY m.year ASC" else "ORDER BY m.year DESC" := by
  cases g <;> cases c with
  | none => by_cases h : sortBy = "year" <;> simp [repository.ListMoviesPlan.build, h]
  | some c =>
    by_cases h : sortBy = "year" <;> by_cases h0 : c = "" <;>
      simp [repository.ListMoviesPlan.build, h, h0]

/-- The sort clause of `saveMoviesRepo.ListSavedMovies`: ascending for `date_added` only. -/
theorem ListSavedMoviesPlan_sortClause (L : Lib) (u : UUID) (c : String)
    (page pageSize : Int) (sortBy : String) :
    (repository.ListSavedMoviesPlan.build L u c page pageSize sortBy).sortClause =
      if sortBy = "date_added" then "ORDER BY sm.date_added ASC"
      else "ORDER BY sm.date_added DESC" := by
  by_cases h : sortBy = "date_added" <;> simp [repository.ListSavedMoviesPlan.build, h]

/-- The text of the page query of `saveMoviesRepo.ListSavedMovies`, in terms of the
clauses of the plan. -/
theorem ListSavedMoviesPlan_query_text (L : Lib) (u : UUID) (c : String)
    (page pageSize : Int) (sortBy : String) :
    (repository.ListSavedMoviesPlan.build L u c page pageSize sortBy).query.query =
      "\n\t\tSELECT DISTINCT m.id, m.title, m.year, m.genre_id\n\t\tFROM save_movies sm\n\t\t" ++
        "INNER JOIN movies m ON sm.movie_id = m.id\n\t\t" ++
        "INNER JOIN movie_availability ma ON m.id = ma.movie_id\n\t\t" ++
        (repository.ListSavedMoviesPlan.build L u c page pageSize sortBy).whereClause ++
        "\n\t\t" ++
        (repository.ListSavedMoviesPlan.build L u c page pageSize sortBy).sortClause ++
        "\n\t\tLIMIT $3 OFFSET $4\n\t" := rfl

/-- The direction of `movieRepo.ListMovies` for the two sort values handler `ListMovies`
hands on. -/
theorem ListMoviesPlan_direction (L : Lib) (c : Option String) (g : Option UUID)
    (page pageSize : Int) (sortBy : String) (h : sortBy = "year" ∨ sortBy = "-year") :
    (sortBy.data.head? = some '-' →
      (repository.ListMoviesPlan.build L c g page pageSize sortBy).sortClause =
        "ORDER BY m.year DESC") ∧
    (sortBy.data.head? ≠ some '-' →
      (repository.ListMoviesPlan.build L c g page pageSize sortBy).sortClause =
        "ORDER BY m.year ASC") := by
  rw [ListMoviesPlan_sortClause]
  rcases h with rfl | rfl
  · exact ⟨fun hd => absurd hd (by decide), fun _ => rfl⟩
  · exact ⟨fun _ => rfl, fun hd => absurd (by decide) hd⟩

/-- The direction of `saveMoviesRepo.ListSavedMovies` for the two sort values handler
`ListSavedMovies` hands on. -/
theorem ListSavedMoviesPlan_direction (L : Lib) (u : UUID) (cc : String)
    (page pageSize : Int) (sortBy : String)
    (h : sortBy = "date_added" ∨ sortBy = "-date_added") :
    (sortBy.data.head? = some '-' →
      (repository.ListSavedMoviesPlan.build L u cc page pageSize sortBy).sortClause =
        "ORDER BY sm.date_added DESC") ∧
    (sortBy.data.head? ≠ some '-' →
      (repository.ListSavedMoviesPlan.build L u cc page pageSize sortBy).sortClause =
        "ORDER BY sm.date_added ASC") := by
  rw [ListSavedMoviesPlan_sortClause]
  rcases h with rfl | rfl
  · exact ⟨fun hd => absurd hd (by decide), fun _ => rfl⟩
  · exact ⟨fun _ => rfl, fun hd => absurd (by decide) hd⟩

/-- C12. For every sort string that is passed to the repository operations, that is every
`sortBy` handed on by handler `ListMovies` (`year`, `-year`) and by handler
`ListSavedMovies` (`date_added`, `-date_added`), the `ORDER BY` clause of the page query is
descending when the string has a leading `-` and ascending when it has none; `ListMovies`
orders by `m.year`, `ListSavedMovies` by `sm.date_added`, and the clause stands in the text
of the page query. -/
theorem sort_direction (L : Lib) (r : Request) (c : Option String) (g : Option UUID)
    (u : UUID) (cc : String) (page pageSize : Int) :
    (∀ a, handler.ListMoviesValidate L r = Except.ok a →
      (a.sortBy.data.head? = some '-' →
        (repository.ListMoviesPlan.build L a.countryCode a.genreID a.page a.pageSize
          a.sortBy).sortClause = "ORDER BY m.year DESC") ∧
      (a.sortBy.data.head? ≠ some '-' →
        (repository.ListMoviesPlan.build L a.countryCode a.genreID a.page a.pageSize
          a.sortBy).sortClause = "ORDER BY m.year ASC")) ∧
    (∀ a, handler.ListSavedMoviesValidate L r = Except.ok a →
      (a.sortBy.data.head? = some '-' →
        (repository.ListSavedMoviesPlan.build L a.userID a.countryCode a.page a.pageSize
          a.sortBy).sortClause = "ORDER BY sm.date_added DESC") ∧
      (a.sortBy.data.head? ≠ some '-' →
        (repository.ListSavedMoviesPlan.build L a.userID a.countryCode a.page a.pageSize
          a.sortBy).sortClause = "ORDER BY sm.date_added ASC")) ∧
    (∀ sortBy : String, sortBy = "year" ∨ sortBy = "-year" →
      (sortBy.data.head? = some '-' →
        (repository.ListMoviesPlan.build L c g page pageSize sortBy).sortClause =
          "ORDER BY m.year DESC") ∧
      (sortBy.data.head? ≠ some '-' →
        (repository.ListMoviesPlan.build L c g page pageSize sortBy).sortClause =
          "ORDER BY m.year ASC")) ∧
    (∀ sortBy : String, sortBy = "date_added" ∨ sortBy = "-date_added" →
      (sortBy.data.head? = some '-' →
        (repository.ListSavedMoviesPlan.build L u cc page pageSize sortBy).sortClause =
          "ORDER BY sm.date_added DESC") ∧
      (sortBy.data.head? ≠ some '-' →
        (repository.ListSavedMoviesPlan.build L u cc page pageSize sortBy).sortClause =
          "ORDER BY sm.date_added ASC")) ∧
    (∀ sortBy : String,
      (repository.ListMoviesPlan.build L c g page pageSize sortBy).query.query =
        "\n\t\tSELECT DISTINCT m.id, m.title, m.year, m.genre_id \n\t\t" ++
          (repository.ListMoviesPlan.build L c g page pageSize sortBy).fromClause ++
          " \n\t\t" ++
          (repository.ListMoviesPlan.build L c g page pageSize sortBy).whereClause ++
          " \n\t\t" ++
          (repository.ListMoviesPlan.build L c g page pageSize sortBy).sortClause ++
          " \n\t\tLIMIT $" ++
          toString ((repository.ListMoviesPlan.build L c g page pageSize
            sortBy).countQuery.args.length + 1) ++
          " OFFSET $" ++
          toString ((repository.ListMoviesPlan.build L c g page pageSize
            sortBy).countQuery.args.length + 2) ++ "\n\t") ∧
    (∀ sortBy : String,
      (repository.ListSavedMoviesPlan.build L u cc page pageSize sortBy).query.query =
        "\n\t\tSELECT DISTINCT m.id, m.title, m.year, m.genre_id\n\t\tFROM save_movies sm\n\t\t" ++
          "INNER JOIN movies m ON sm.movie_id = m.id\n\t\t" ++
          "INNER JOIN movie_availability ma ON m.id = ma.movie_id\n\t\t" ++
          (repository.ListSavedMoviesPlan.build L u cc page pageSize sortBy).whereClause ++
          "\n\t\t" ++
          (repository.ListSavedMoviesPlan.build L u cc page pageSize sortBy).sortClause ++
          "\n\t\tLIMIT $3 OFFSET $4\n\t") := by
  refine ⟨?_, ?_, ?_, ?_, ?_, ?_⟩
  · intro a ha
    apply ListMoviesPlan_direction
    rcases ListMoviesValidate_ok_sort L r a ha with h | h | h
    · exact Or.inr h.2
    · exact Or.inl h.2
    · exact Or.inr h.2
  · intro a ha
    apply ListSavedMoviesPlan_direction
    rcases ListSavedMoviesValidate_ok_sort L r a ha with h | h | h
    · exact Or.inr h.2
    · exact Or.inl h.2
    · exact Or.inr h.2
  · intro sortBy h
    exact ListMoviesPlan_direction L c g page pageSize sortBy h
  · intro sortBy h
    exact ListSavedMoviesPlan_direction L u cc page pageSize sortBy h
  · intro sortBy
    exact ListMoviesPlan_query_text L c g page pageSize sortBy
  · intro sortBy
    exact ListSavedMoviesPlan_query_text L u cc page pageSize sortBy

/-- Whether the availability join is made depends on the country argument only. -/
theorem ListMoviesPlan_needsJoin (L : Lib) (c : Option String) (g : Option UUID)
    (page pageSize : Int) (sortBy : String) :
    (repository.ListMoviesPlan.build L c g page pageSize sortBy).needsJoin =
      (match c with
        | none => false
        | some x => decide (x ≠ "")) := by
  cases g <;> cases c with
  | none => rfl
  | some c => by_cases h : c = "" <;> simp [repository.ListMoviesPlan.build, h]

/-- The page query of `movieRepo.ListMovies` passes the store's `SELECT DISTINCT` rule. -/
theorem ListMoviesPlan_distinct_ok (L : Lib) (c : Option String) (g : Option UUID)
    (page pageSize : Int) (sortBy : String) :
    repository.checkDistinctOrder
      (repository.ListMoviesPlan.build L c g page pageSize sortBy).selectList
      (repository.ListMoviesPlan.build L c g page pageSize sortBy).orderExpr = none := by
  cases g <;> cases c with
  | none => rfl
  | some c => by_cases h : c = "" <;> simp [repository.ListMoviesPlan.build, h] <;> rfl

/-- What `movieRepo.ListMovies` returns on the store: the total is the number of distinct
ids among the filtered rows, and every returned movie is one of those rows. -/
theorem repo_ListMovies_ok (L : Lib) (db : Store) (c : Option String) (g : Option UUID)
    (page pageSize : Int) (sortBy : String) (movies : List Movie) (total : Int)
    (h : repository.ListMovies L db c g page pageSize sortBy = Except.ok (movies, total)) :
    total = (((repository.listMoviesRows db g (countryFilter L c)).map
        fun m => m.ID).dedup.length : Nat) ∧
    ∀ m ∈ movies, m ∈ repository.listMoviesRows db g (countryFilter L c) := by
  have hcountry : (if (repository.ListMoviesPlan.build L c g page pageSize sortBy).needsJoin
      = true then some (ToUpper L (c.getD "")) else none) = countryFilter L c := by
    rw [ListMoviesPlan_needsJoin]
    cases c with
    | none => rfl
    | some x => by_cases hx : x = "" <;> simp [hx, countryFilter]
  unfold repository.ListMovies at h
  simp only [ListMoviesPlan_distinct_ok, hcountry] at h
  split at h
  · exact Except.noConfusion h
  · rename_i rows hrows
    injection h with h
    injection h with h1 h2
    refine ⟨h2.symm, ?_⟩
    intro m hm
    rw [← h1] at hm
    unfold repository.limitOffset at hrows
    split at hrows
    · exact Except.noConfusion hrows
    · split at hrows
      · exact Except.noConfusion hrows
      · injection hrows with hrows
        rw [← hrows] at hm
        have hm1 := List.mem_of_mem_drop (List.mem_of_mem_take hm)
        split at hm1
        · exact List.mem_dedup.mp ((List.perm_insertionSort _ _).mem_iff.mp hm1)
        · exact List.mem_dedup.mp ((List.perm_insertionSort _ _).mem_iff.mp hm1)

/-- The count query, the `FROM` clause and the `WHERE` clause of `movieRepo.ListMovies` do
not depend on the page, the page size or the sort descriptor. -/
theorem ListMoviesPlan_count_indep (L : Lib) (c : Option String) (g : Option UUID)
    (page pageSize : Int) (sortBy : String) (page' pageSize' : Int) (sortBy' : String) :
    (repository.ListMoviesPlan.build L c g page' pageSize' sortBy').countQuery =
      (repository.ListMoviesPlan.build L c g page pageSize sortBy).countQuery ∧
    (repository.ListMoviesPlan.build L c g page' pageSize' sortBy').fromClause =
      (repository.ListMoviesPlan.build L c g page pageSize sortBy).fromClause ∧
    (repository.ListMoviesPlan.build L c g page' pageSize' sortBy').whereClause =
      (repository.ListMoviesPlan.build L c g page pageSize sortBy).whereClause := by
  cases g <;> cases c with
  | none => exact ⟨rfl, rfl, rfl⟩
  | some c => by_cases h : c = "" <;> simp [repository.ListMoviesPlan.build, h]

/-- C13. The count query and the page query of repository `ListMovies` are built from
the same `FROM`/`JOIN` clause and the same `WHERE` clause, the arguments of the page query
are those of the count query followed by the page size and the offset, the count query does
not depend on page, page size or sort, and on the store the returned total is the number of
distinct movie ids among the rows that the page is taken from. -/
theorem listMovies_count_same_filter (L : Lib) (c : Option String) (g : Option UUID)
    (page pageSize : Int) (sortBy : String) :
    ((repository.ListMoviesPlan.build L c g page pageSize sortBy).countQuery.query =
      "SELECT COUNT(DISTINCT m.id) " ++
        (repository.ListMoviesPlan.build L c g page pageSize sortBy).fromClause ++ " " ++
        (repository.ListMoviesPlan.build L c g page pageSize sortBy).whereClause) ∧
    ((repository.ListMoviesPlan.build L c g page pageSize sortBy).query.query =
      "\n\t\tSELECT DISTINCT m.id, m.title, m.year, m.genre_id \n\t\t" ++
        (repository.ListMoviesPlan.build L c g page pageSize sortBy).fromClause ++
        " \n\t\t" ++ (repository.ListMoviesPlan.build L c g page pageSize sortBy).whereClause ++
        " \n\t\t" ++ (repository.ListMoviesPlan.build L c g page pageSize sortBy).sortClause ++
        " \n\t\tLIMIT $" ++
        toString ((repository.ListMoviesPlan.build L c g page pageSize
          sortBy).countQuery.args.length + 1) ++
        " OFFSET $" ++
        toString ((repository.ListMoviesPlan.build L c g page pageSize
          sortBy).countQuery.args.length + 2) ++ "\n\t") ∧
    ((repository.ListMoviesPlan.build L c g page pageSize sortBy).query.args =
      (repository.ListMoviesPlan.build L c g page pageSize sortBy).countQuery.args ++
        [Arg.int pageSize,
          Arg.int (repository.ListMoviesPlan.build L c g page pageSize sortBy).offset]) ∧
    (∀ (page' pageSize' : Int) (sortBy' : String),
      (repository.ListMoviesPlan.build L c g page' pageSize' sortBy').countQuery =
        (repository.ListMoviesPlan.build L c g page pageSize sortBy).countQuery) ∧
    (∀ (db : Store) (movies : List Movie) (total : Int),
      repository.ListMovies L db c g page pageSize sortBy = Except.ok (movies, total) →
      total = (((repository.listMoviesRows db g (countryFilter L c)).map
        fun m => m.ID).dedup.length : Nat) ∧
      ∀ m ∈ movies, m ∈ repository.listMoviesRows db g (countryFilter L c)) := by
  refine ⟨ListMoviesPlan_count_text L c g page pageSize sortBy,
    ListMoviesPlan_query_text L c g page pageSize sortBy,
    ListMoviesPlan_args L c g page pageSize sortBy, ?_, ?_⟩
  · intro page' pageSize' sortBy'
    exact (ListMoviesPlan_count_indep L c g page pageSize sortBy page' pageSize' sortBy').1
  · intro db movies total h
    exact repo_ListMovies_ok L db c g page pageSize sortBy movies total h

/-- The rows selected by the page query of `ListSavedMovies`. -/
theorem mem_listSavedRows (db : Store) (u : UUID) (c : String) (m : Movie) :
    m ∈ repository.listSavedRows db u c ↔
      m ∈ db.movies ∧ ∃ sm ∈ db.save_movies, ∃ a ∈ db.movie_availability,
        sm.MovieID = m.ID ∧ m.ID = a.MovieID ∧ sm.UserID = u ∧ a.CountryCode = c := by
  unfold repository.listSavedRows
  simp only [List.mem_flatMap, List.mem_map, List.mem_filter, decide_eq_true_eq]
  constructor
  · rintro ⟨sm, hsm, m', hm', a, ⟨ha, hc⟩, rfl⟩
    exact ⟨hm', sm, hsm, a, ha, hc⟩
  · rintro ⟨hm, sm, hsm, a, ha, hc⟩
    exact ⟨sm, hsm, m, hm, a, ⟨ha, hc⟩, rfl⟩

/-- The movie ids counted by the count query of `ListSavedMovies`. -/
theorem mem_countSavedRows (db : Store) (u : UUID) (c : String) (i : UUID) :
    i ∈ repository.countSavedRows db u c ↔
      ∃ sm ∈ db.save_movies, ∃ a ∈ db.movie_availability,
        sm.MovieID = a.MovieID ∧ sm.UserID = u ∧ a.CountryCode = c ∧ sm.MovieID = i := by
  unfold repository.countSavedRows
  simp only [List.mem_flatMap, List.mem_map, List.mem_filter, decide_eq_true_eq]
  constructor
  · rintro ⟨sm, hsm, a, ⟨ha, h1, h2, h3⟩, rfl⟩
    exact ⟨sm, hsm, a, ha, h1, h2, h3, rfl⟩
  · rintro ⟨sm, hsm, a, ha, h1, h2, h3, rfl⟩
    exact ⟨sm, hsm, a, ⟨ha, h1, h2, h3⟩, rfl⟩

/-- With referential integrity the count query of `ListSavedMovies` counts the distinct
movies selected by its page query. -/
theorem savedCount_eq (db : Store) (u : UUID) (c : String)
    (hfk : ∀ sm ∈ db.save_movies, ∃ m ∈ db.movies, m.ID = sm.MovieID)
    (hkey : ∀ m ∈ db.movies, ∀ m' ∈ db.movies, m.ID = m'.ID → m = m') :
    (repository.countSavedRows db u c).dedup.length =
      (repository.listSavedRows db u c).dedup.length := by
  rw [← List.card_toFinset, ← List.card_toFinset]
  have himg : (repository.countSavedRows db u c).toFinset =
      (repository.listSavedRows db u c).toFinset.image (fun m => m.ID) := by
    ext i
    simp only [List.mem_toFinset, Finset.mem_image, mem_countSavedRows, mem_listSavedRows]
    constructor
    · rintro ⟨sm, hsm, a, ha, h1, h2, h3, rfl⟩
      obtain ⟨m, hm, hmid⟩ := hfk sm hsm
      exact ⟨m, ⟨hm, sm, hsm, a, ha, hmid.symm, by rw [hmid]; exact h1, h2, h3⟩, hmid⟩
    · rintro ⟨m, ⟨_, sm, hsm, a, ha, h1, h2, h3, h4⟩, rfl⟩
      exact ⟨sm, hsm, a, ha, by rw [h1]; exact h2, h3, h4, h1⟩
  rw [himg]
  apply Finset.card_image_of_injOn
  intro m hm m' hm' e
  have h1 := ((mem_listSavedRows db u c m).mp (List.mem_toFinset.mp hm)).1
  have h2 := ((mem_listSavedRows db u c m').mp (List.mem_toFinset.mp hm')).1
  exact hkey m h1 m' h2 e

/-- C14, as stated, fails: the count query of `ListSavedMovies` joins `save_movies` with
`movie_availability` only, the page query also with `movies`; on a store holding a saved
movie without a `movies` row the count query counts 1 and the page query selects nothing. -/
theorem savedMovies_count_joins_differ :
    (repository.ListSavedMoviesPlan.build demoLib 1 "US" 1 20 "date_added").countQuery.query =
      "\n\t\tSELECT COUNT(DISTINCT sm.movie_id)\n\t\tFROM save_movies sm\n\t\t" ++
        "INNER JOIN movie_availability ma ON sm.movie_id = ma.movie_id\n\t\t" ++
        "WHERE sm.user_id = $1 AND ma.country_code = $2" ++ "\n\t" ∧
    (repository.ListSavedMoviesPlan.build demoLib 1 "US" 1 20 "date_added").query.query =
      "\n\t\tSELECT DISTINCT m.id, m.title, m.year, m.genre_id\n\t\tFROM save_movies sm\n\t\t" ++
        "INNER JOIN movies m ON sm.movie_id = m.id\n\t\t" ++
        "INNER JOIN movie_availability ma ON m.id = ma.movie_id\n\t\t" ++
        "WHERE sm.user_id = $1 AND ma.country_code = $2" ++ "\n\t\t" ++
        "ORDER BY sm.date_added ASC" ++ "\n\t\tLIMIT $3 OFFSET $4\n\t" ∧
    (repository.countSavedRows demoOrphanStore 1 "US").dedup.length = 1 ∧
    (repository.listSavedRows demoOrphanStore 1 "US").dedup.length = 0 :=
  ⟨rfl, rfl, by decide, by decide⟩

/-- C14, amended. The count query of `ListSavedMovies` has the `WHERE` filter and the two
bound arguments (user id, upper-cased country) of the page query and its availability join,
but not its join with `movies`; on every store in which each saved movie id has a `movies`
row and ids identify the rows of `movies`, the number counted by the count query is the
number of distinct movies selected by the joins and the filter of the page query. -/
theorem savedMovies_count_same_filter (L : Lib) (db : Store) (u : UUID) (cc : String)
    (page pageSize : Int) (sortBy : String)
    (hfk : ∀ sm ∈ db.save_movies, ∃ m ∈ db.movies, m.ID = sm.MovieID)
    (hkey : ∀ m ∈ db.movies, ∀ m' ∈ db.movies, m.ID = m'.ID → m = m') :
    ((repository.ListSavedMoviesPlan.build L u cc page pageSize sortBy).countQuery.query =
      "\n\t\tSELECT COUNT(DISTINCT sm.movie_id)\n\t\tFROM save_movies sm\n\t\t" ++
        "INNER JOIN movie_availability ma ON sm.movie_id = ma.movie_id\n\t\t" ++
        (repository.ListSavedMoviesPlan.build L u cc page pageSize sortBy).whereClause ++
        "\n\t") ∧
    ((repository.ListSavedMoviesPlan.build L u cc page pageSize sortBy).query.query =
      "\n\t\tSELECT DISTINCT m.id, m.title, m.year, m.genre_id\n\t\tFROM save_movies sm\n\t\t" ++
        "INNER JOIN movies m ON sm.movie_id = m.id\n\t\t" ++
        "INNER JOIN movie_availability ma ON m.id = ma.movie_id\n\t\t" ++
        (repository.ListSavedMoviesPlan.build L u cc page pageSize sortBy).whereClause ++
        "\n\t\t" ++
        (repository.ListSavedMoviesPlan.build L u cc page pageSize sortBy).sortClause ++
        "\n\t\tLIMIT $3 OFFSET $4\n\t") ∧
    (repository.ListSavedMoviesPlan.build L u cc page pageSize sortBy).countQuery.args =
      [Arg.uuid u, Arg.str (ToUpper L cc)] ∧
    (repository.ListSavedMoviesPlan.build L u cc page pageSize sortBy).query.args =
      [Arg.uuid u, Arg.str (ToUpper L cc), Arg.int pageSize,
        Arg.int (repoOffset page pageSize)] ∧
    (repository.countSavedRows db u (ToUpper L cc)).dedup.length =
      (repository.listSavedRows db u (ToUpper L cc)).dedup.length :=
  ⟨rfl, rfl, rfl, rfl, savedCount_eq db u (ToUpper L cc) hfk hkey⟩

/-- Witness of `savedMovies_count_same_filter`: the demo store after user 1 saved
movie 7. -/
theorem savedMovies_count_same_filter_witness :
    (∀ sm ∈ (withSaved demoStore 1 7).save_movies,
      ∃ m ∈ (withSaved demoStore 1 7).movies, m.ID = sm.MovieID) ∧
    (∀ m ∈ (withSaved demoStore 1 7).movies, ∀ m' ∈ (withSaved demoStore 1 7).movies,
      m.ID = m'.ID → m = m') ∧
    (repository.countSavedRows (withSaved demoStore 1 7) 1 (ToUpper demoLib "us")).dedup.length =
      (repository.listSavedRows (withSaved demoStore 1 7) 1
        (ToUpper demoLib "us")).dedup.length :=
  ⟨by decide, by decide,
    (savedMovies_count_same_filter demoLib (withSaved demoStore 1 7) 1 "us" 1 20 ""
      (by decide) (by decide)).2.2.2.2⟩

/-- C17. The four combinations of the genre and country filters in repository
`ListMovies`: no filter (country absent or empty) gives no `WHERE` clause, no join and
`LIMIT $1 OFFSET $2`; genre only gives `WHERE m.genre_id = $1` and `LIMIT $2 OFFSET $3`;
country only gives the availability join, `WHERE ma.country_code = $1` and
`LIMIT $2 OFFSET $3`; both give the join, the two conditions joined by `AND` and
`LIMIT $3 OFFSET $4`; the arguments are, in placeholder order, the genre id, the upper-cased
country, the page size and the offset. -/
theorem listMovies_where_and_placeholders (L : Lib) (g : UUID) (c : String)
    (page pageSize : Int) (sortBy : String) :
    (∀ co : Option String, co = none ∨ co = some "" →
      (repository.ListMoviesPlan.build L co none page pageSize sortBy).needsJoin = false ∧
      (repository.ListMoviesPlan.build L co none page pageSize sortBy).whereConditions = [] ∧
      (repository.ListMoviesPlan.build L co none page pageSize sortBy).whereClause = "" ∧
      (repository.ListMoviesPlan.build L co none page pageSize sortBy).fromClause =
        "FROM movies m" ∧
      (repository.ListMoviesPlan.build L co none page pageSize sortBy).countQuery =
        ⟨"SELECT COUNT(DISTINCT m.id) " ++ "FROM movies m" ++ " " ++ "", []⟩ ∧
      (repository.ListMoviesPlan.build L co none page pageSize sortBy).query =
        ⟨"\n\t\tSELECT DISTINCT m.id, m.title, m.year, m.genre_id \n\t\t" ++ "FROM movies m" ++
          " \n\t\t" ++ "" ++ " \n\t\t" ++
          (repository.ListMoviesPlan.build L co none page pageSize sortBy).sortClause ++
          " \n\t\tLIMIT $" ++ "1" ++ " OFFSET $" ++ "2" ++ "\n\t",
          [Arg.int pageSize, Arg.int (repoOffset page pageSize)]⟩) ∧
    (∀ co : Option String, co = none ∨ co = some "" →
      (repository.ListMoviesPlan.build L co (some g) page pageSize sortBy).needsJoin = false ∧
      (repository.ListMoviesPlan.build L co (some g) page pageSize sortBy).whereConditions =
        ["m.genre_id = $1"] ∧
      (repository.ListMoviesPlan.build L co (some g) page pageSize sortBy).whereClause =
        "WHERE m.genre_id = $1" ∧
      (repository.ListMoviesPlan.build L co (some g) page pageSize sortBy).fromClause =
        "FROM movies m" ∧
      (repository.ListMoviesPlan.build L co (some g) page pageSize sortBy).countQuery =
        ⟨"SELECT COUNT(DISTINCT m.id) " ++ "FROM movies m" ++ " " ++ "WHERE m.genre_id = $1",
          [Arg.uuid g]⟩ ∧
      (repository.ListMoviesPlan.build L co (some g) page pageSize sortBy).query =
        ⟨"\n\t\tSELECT DISTINCT m.id, m.title, m.year, m.genre_id \n\t\t" ++ "FROM movies m" ++
          " \n\t\t" ++ "WHERE m.genre_id = $1" ++ " \n\t\t" ++
          (repository.ListMoviesPlan.build L co (some g) page pageSize sortBy).sortClause ++
          " \n\t\tLIMIT $" ++ "2" ++ " OFFSET $" ++ "3" ++ "\n\t",
          [Arg.uuid g, Arg.int pageSize, Arg.int (repoOffset page pageSize)]⟩) ∧
    (c ≠ "" →
      (repository.ListMoviesPlan.build L (some c) none page pageSize sortBy).needsJoin = true ∧
      (repository.ListMoviesPlan.build L (some c) none page pageSize sortBy).whereConditions =
        ["ma.country_code = $1"] ∧
      (repository.ListMoviesPlan.build L (some c) none page pageSize sortBy).whereClause =
        "WHERE ma.country_code = $1" ∧
      (repository.ListMoviesPlan.build L (some c) none page pageSize sortBy).fromClause =
        "FROM movies m INNER JOIN movie_availability ma ON m.id = ma.movie_id" ∧
      (repository.ListMoviesPlan.build L (some c) none page pageSize sortBy).countQuery =
        ⟨"SELECT COUNT(DISTINCT m.id) " ++
          "FROM movies m INNER JOIN movie_availability ma ON m.id = ma.movie_id" ++ " " ++
          "WHERE ma.country_code = $1", [Arg.str (ToUpper L c)]⟩ ∧
      (repository.ListMoviesPlan.build L (some c) none page pageSize sortBy).query =
        ⟨"\n\t\tSELECT DISTINCT m.id, m.title, m.year, m.genre_id \n\t\t" ++
          "FROM movies m INNER JOIN movie_availability ma ON m.id = ma.movie_id" ++
          " \n\t\t" ++ "WHERE ma.country_code = $1" ++ " \n\t\t" ++
          (repository.ListMoviesPlan.build L (some c) none page pageSize sortBy).sortClause ++
          " \n\t\tLIMIT $" ++ "2" ++ " OFFSET $" ++ "3" ++ "\n\t",
          [Arg.str (ToUpper L c), Arg.int pageSize, Arg.int (repoOffset page pageSize)]⟩) ∧
    (c ≠ "" →
      (repository.ListMoviesPlan.build L (some c) (some g) page pageSize sortBy).needsJoin =
        true ∧
      (repository.ListMoviesPlan.build L (some c) (some g) page pageSize
          sortBy).whereConditions = ["m.genre_id = $1", "ma.country_code = $2"] ∧
      (repository.ListMoviesPlan.build L (some c) (some g) page pageSize sortBy).whereClause =
        "WHERE m.genre_id = $1 AND ma.country_code = $2" ∧
      (repository.ListMoviesPlan.build L (some c) (some g) page pageSize sortBy).fromClause =
        "FROM movies m INNER JOIN movie_availability ma ON m.id = ma.movie_id" ∧
      (repository.ListMoviesPlan.build L (some c) (some g) page pageSize sortBy).countQuery =
        ⟨"SELECT COUNT(DISTINCT m.id) " ++
          "FROM movies m INNER JOIN movie_availability ma ON m.id = ma.movie_id" ++ " " ++
          "WHERE m.genre_id = $1 AND ma.country_code = $2",
          [Arg.uuid g, Arg.str (ToUpper L c)]⟩ ∧
      (repository.ListMoviesPlan.build L (some c) (some g) page pageSize sortBy).query =
        ⟨"\n\t\tSELECT DISTINCT m.id, m.title, m.year, m.genre_id \n\t\t" ++
          "FROM movies m INNER JOIN movie_availability ma ON m.id = ma.movie_id" ++
          " \n\t\t" ++ "WHERE m.genre_id = $1 AND ma.country_code = $2" ++ " \n\t\t" ++
          (repository.ListMoviesPlan.build L (some c) (some g) page pageSize
            sortBy).sortClause ++
          " \n\t\tLIMIT $" ++ "3" ++ " OFFSET $" ++ "4" ++ "\n\t",
          [Arg.uuid g, Arg.str (ToUpper L c), Arg.int pageSize,
            Arg.int (repoOffset page pageSize)]⟩) := by
  refine ⟨?_, ?_, ?_, ?_⟩
  · rintro co (rfl | rfl) <;> exact ⟨rfl, rfl, rfl, rfl, rfl, rfl⟩
  · rintro co (rfl | rfl) <;> exact ⟨rfl, rfl, rfl, rfl, rfl, rfl⟩
  · intro hc
    have t1 : toString (1 : Nat) = "1" := rfl
    have t2 : toString (2 : Nat) = "2" := rfl
    have t3 : toString (3 : Nat) = "3" := rfl
    have t4 : toString (4 : Nat) = "4" := rfl
    have i1 : " AND ".intercalate ["ma.country_code = $1"] = "ma.country_code = $1" := rfl
    have i2 : " AND ".intercalate ["m.genre_id = $1", "ma.country_code = $2"] =
        "m.genre_id = $1 AND ma.country_code = $2" := by decide
    simp [repository.ListMoviesPlan.build, hc, t1, t2, t3, t4, i1, i2, String.append_assoc]
  · intro hc
    have t1 : toString (1 : Nat) = "1" := rfl
    have t2 : toString (2 : Nat) = "2" := rfl
    have t3 : toString (3 : Nat) = "3" := rfl
    have t4 : toString (4 : Nat) = "4" := rfl
    have i1 : " AND ".intercalate ["ma.country_code = $1"] = "ma.country_code = $1" := rfl
    have i2 : " AND ".intercalate ["m.genre_id = $1", "ma.country_code = $2"] =
        "m.genre_id = $1 AND ma.country_code = $2" := by decide
    simp [repository.ListMoviesPlan.build, hc, t1, t2, t3, t4, i1, i2, String.append_assoc]

/-! ## Storage failures, empty pages, ownership -/

/-- C15, evaluated where the claim fails: whatever error `GetMovieByID` returns, handler
`SaveMovie` answers 404 `MOVIE_NOT_FOUND`, and whatever error the user lookup returns,
`APIKeyAuth` answers 401 `UNAUTHORIZED`; with an unreachable database (`connection refused`)
the responses are 404 and 401 where the claim requires 500 `INTERNAL_ERROR`. -/
theorem storage_failure_not_reported_as_500 :
    (∀ (L : Lib) (σ : Type) (saveRepo : repository.SaveMoviesRepository σ)
        (movieRepo : repository.MovieRepository σ) (r : Request) (s : σ)
        (a : handler.SaveMovieArgs) (e : String),
      handler.SaveMovieValidate L r = Except.ok a →
      movieRepo.GetMovieByID s a.movieID = Except.error e →
      handler.SaveMovie L saveRepo movieRepo r s =
        (WriteErrorResponse 404 "MOVIE_NOT_FOUND" "Movie not found", s)) ∧
    (∀ (σ : Type) (repo : repository.UserRepository σ) (next : Request → σ → Response × σ)
        (r : Request) (s : σ) (e : String),
      middleware.extractAPIKey r ≠ "" →
      repo.FindUserByAPIKey s (middleware.extractAPIKey r) = Except.error e →
      middleware.APIKeyAuth repo next r s =
        (WriteErrorResponse 401 "UNAUTHORIZED" "Invalid API key", s)) ∧
    handler.SaveMovie demoLib (repository.saveMoviesRepo demoLib) (repository.downMovieRepo Store)
        demoSaveRequest demoStore =
      (WriteErrorResponse 404 "MOVIE_NOT_FOUND" "Movie not found", demoStore) ∧
    (∀ next : Request → Store → Response × Store,
      middleware.APIKeyAuth (repository.downUserRepo Store) next demoKeyRequest demoStore =
        (WriteErrorResponse 401 "UNAUTHORIZED" "Invalid API key", demoStore)) := by
  refine ⟨?_, ?_, rfl, fun _ => rfl⟩
  · intro L σ saveRepo movieRepo r s a e hv hg
    simp [handler.SaveMovie, hv, hg]
  · intro σ repo next r s e hk hf
    simp [middleware.APIKeyAuth, hk, hf]

/-- C16, evaluated where the claim fails: for `GET /genres` on a store without genres, and
for page 2 of a store with one genre, the handler passes on the nil slice of the repository,
which is encoded as `null`; the two movie listings build their own slice and encode `[]`,
with the total of the repository and the resolved page and page size. -/
theorem empty_genre_page_encodes_null :
    handler.ListGenres repository.genreRepo {} ({} : Store) =
      ⟨200, Body.pagedGenres none 1 20 0⟩ ∧
    handler.ListGenres repository.genreRepo { Query := [("page", "2")] } demoGenreStore =
      ⟨200, Body.pagedGenres none 2 20 1⟩ ∧
    (Body.pagedGenres none 2 20 1).dataJSON = some JSONData.null ∧
    (∀ (L : Lib) (σ : Type) (repo : repository.MovieRepository σ) (r : Request) (s : σ)
        (a : handler.ListMoviesArgs) (total : Int),
      handler.ListMoviesValidate L r = Except.ok a →
      repo.ListMovies s a.countryCode a.genreID a.page a.pageSize a.sortBy =
        Except.ok ([], total) →
      handler.ListMovies L repo r s = ⟨200, Body.paged [] a.page a.pageSize total⟩ ∧
      (handler.ListMovies L repo r s).body.dataJSON = some (JSONData.array 0)) ∧
    (∀ (L : Lib) (σ : Type) (saveRepo : repository.SaveMoviesRepository σ)
        (movieRepo : repository.MovieRepository σ) (r : Request) (s : σ)
        (a : handler.ListSavedMoviesArgs) (total : Int),
      handler.ListSavedMoviesValidate L r = Except.ok a →
      saveRepo.ListSavedMovies s a.userID a.countryCode a.page a.pageSize a.sortBy =
        Except.ok ([], total) →
      handler.ListSavedMovies L saveRepo movieRepo r s =
        ⟨200, Body.paged [] a.page a.pageSize total⟩ ∧
      (handler.ListSavedMovies L saveRepo movieRepo r s).body.dataJSON =
        some (JSONData.array 0)) := by
  refine ⟨by decide, by decide, rfl, ?_, ?_⟩
  · intro L σ repo r s a total hv hr
    simp [handler.ListMovies, hv, hr, handler.movieResponses, Body.dataJSON]
  · intro L σ saveRepo movieRepo r s a total hv hr
    simp [handler.ListSavedMovies, hv, hr, handler.movieResponses, Body.dataJSON]

/-- The saved-movie handlers do not read the user id that the middleware stored in the
request context. -/
theorem handlers_ignore_context (L : Lib) (σ : Type)
    (saveRepo : repository.SaveMoviesRepository σ) (movieRepo : repository.MovieRepository σ)
    (r : Request) (s : σ) (v : Option UUID) :
    handler.ListSavedMovies L saveRepo movieRepo { r with ctxUserID := v } s =
      handler.ListSavedMovies L saveRepo movieRepo r s ∧
    handler.SaveMovie L saveRepo movieRepo { r with ctxUserID := v } s =
      handler.SaveMovie L saveRepo movieRepo r s ∧
    handler.RemoveSavedMovie L saveRepo { r with ctxUserID := v } s =
      handler.RemoveSavedMovie L saveRepo r s :=
  ⟨rfl, rfl, rfl⟩

/-- The user id that `ListSavedMoviesValidate` hands on is the parsed path variable. -/
theorem ListSavedMoviesValidate_user (L : Lib) (r : Request) (a : handler.ListSavedMoviesArgs)
    (h : handler.ListSavedMoviesValidate L r = Except.ok a) :
    L.uuidParse (r.Vars.Get "user_id") = some a.userID := by
  unfold handler.ListSavedMoviesValidate at h
  split at h
  · exact Except.noConfusion h
  · split at h
    · exact Except.noConfusion h
    · rename_i u hu
      simp only at h
      split at h
      · exact Except.noConfusion h
      · split at h
        · exact Except.noConfusion h
        · split at h
          · exact Except.noConfusion h
          · split at h
            · injection h with h
              subst h
              exact hu
            · split at h
              · exact Except.noConfusion h
              · injection h with h
                subst h
                exact hu

/-- The user id that `SaveMovieValidate` hands on is the parsed path variable. -/
theorem SaveMovieValidate_user (L : Lib) (r : Request) (a : handler.SaveMovieArgs)
    (h : handler.SaveMovieValidate L r = Except.ok a) :
    L.uuidParse (r.Vars.Get "user_id") = some a.userID := by
  unfold handler.SaveMovieValidate at h
  split at h
  · exact Except.noConfusion h
  · split at h
    · exact Except.noConfusion h
    · rename_i u hu
      simp only at h
      split at h
      · exact Except.noConfusion h
      · split at h
        · exact Except.noConfusion h
        · split at h
          · exact Except.noConfusion h
          · split at h
            · exact Except.noConfusion h
            · injection h with h
              subst h
              exact hu

/-- C18, as stated, fails: a request to `POST /users/2/movies` presenting the API key of
user 1 is admitted as user 1 and saves the movie into the list of user 2. -/
theorem key_of_one_user_acts_on_list_of_another :
    repository.FindUserByAPIKey demoTwoUserStore (middleware.extractAPIKey demoForeignRequest) =
      Except.ok ⟨1, "A", "2000-01-01", "key-1"⟩ ∧
    handler.SaveMovieValidate demoLib demoForeignRequest = Except.ok ⟨2, "US", 7⟩ ∧
    middleware.APIKeyAuth repository.userRepo
        (handler.SaveMovie demoLib (repository.saveMoviesRepo demoLib)
          (repository.movieRepo demoLib)) demoForeignRequest demoTwoUserStore =
      (⟨200, Body.movie (demoLib.uuidString 7) "T" 1999⟩,
        { demoTwoUserStore with save_movies := [⟨2, 7, 0⟩] }) :=
  ⟨rfl, rfl, rfl⟩

/-- C18, amended. For every request admitted by `APIKeyAuth` to a saved-movie endpoint the
handler behaves as it does without the middleware: the user id passed to the saved-movie
repository is the parsed `user_id` path variable, whoever owns the presented key; the id of
the key's owner is only stored in the request context. -/
theorem saved_endpoints_act_on_path_user (L : Lib) (σ : Type)
    (userRepo : repository.UserRepository σ) (saveRepo : repository.SaveMoviesRepository σ)
    (movieRepo : repository.MovieRepository σ) (r : Request) (s : σ) (user : User)
    (hk : middleware.extractAPIKey r ≠ "")
    (hf : userRepo.FindUserByAPIKey s (middleware.extractAPIKey r) = Except.ok user) :
    (middleware.APIKeyAuth userRepo
        (fun q t => (handler.ListSavedMovies L saveRepo movieRepo q t, t)) r s =
      (handler.ListSavedMovies L saveRepo movieRepo r s, s)) ∧
    (middleware.APIKeyAuth userRepo (handler.SaveMovie L saveRepo movieRepo) r s =
      handler.SaveMovie L saveRepo movieRepo r s) ∧
    (middleware.APIKeyAuth userRepo (handler.RemoveSavedMovie L saveRepo) r s =
      handler.RemoveSavedMovie L saveRepo r s) ∧
    (∀ a, handler.ListSavedMoviesValidate L r = Except.ok a →
      L.uuidParse (r.Vars.Get "user_id") = some a.userID ∧
      handler.ListSavedMovies L saveRepo movieRepo r s =
        (match saveRepo.ListSavedMovies s a.userID a.countryCode a.page a.pageSize a.sortBy with
          | Except.error e =>
            WriteErrorResponse 500 "INTERNAL_ERROR" ("Failed to fetch saved movies: " ++ e)
          | Except.ok (movies, total) =>
            ⟨200, Body.paged (handler.movieResponses L movies) a.page a.pageSize total⟩)) ∧
    (∀ a, handler.SaveMovieValidate L r = Except.ok a →
      L.uuidParse (r.Vars.Get "user_id") = some a.userID) ∧
    (∀ u m, r.Method = "DELETE" → L.uuidParse (r.Vars.Get "user_id") = some u →
      L.uuidParse (r.Vars.Get "movie_id") = some m →
      (handler.RemoveSavedMovie L saveRepo r s).2 = (saveRepo.RemoveSavedMovie s u m).2) := by
  have hctx := handlers_ignore_context L σ saveRepo movieRepo r s (some user.ID)
  refine ⟨?_, ?_, ?_, ?_, ?_, ?_⟩
  · simp only [middleware.APIKeyAuth, hk, hf, if_false]
    rw [hctx.1]
  · simp only [middleware.APIKeyAuth, hk, hf, if_false]
    rw [hctx.2.1]
  · simp only [middleware.APIKeyAuth, hk, hf, if_false]
    rw [hctx.2.2]
  · intro a ha
    refine ⟨ListSavedMoviesValidate_user L r a ha, ?_⟩
    simp only [handler.ListSavedMovies, ha]
  · intro a ha
    exact SaveMovieValidate_user L r a ha
  · intro u m hm hu hmv
    simp only [handler.RemoveSavedMovie, hm, hu, hmv, ne_eq, not_true_eq_false, if_false]
    rcases hres : saveRepo.RemoveSavedMovie s u m with ⟨e, s1⟩
    cases e with
    | none => rfl
    | some e => by_cases hc : Contains e "not saved" = true <;> simp [hc]

/-- Witness of `saved_endpoints_act_on_path_user`: the key of user 1 on the path of
user 2. -/
theorem saved_endpoints_act_on_path_user_witness :
    middleware.extractAPIKey demoForeignRequest ≠ "" ∧
    repository.userRepo.FindUserByAPIKey demoTwoUserStore
        (middleware.extractAPIKey demoForeignRequest) =
      Except.ok ⟨1, "A", "2000-01-01", "key-1"⟩ ∧
    middleware.APIKeyAuth repository.userRepo
        (handler.SaveMovie demoLib (repository.saveMoviesRepo demoLib)
          (repository.movieRepo demoLib)) demoForeignRequest demoTwoUserStore =
      handler.SaveMovie demoLib (repository.saveMoviesRepo demoLib)
        (repository.movieRepo demoLib) demoForeignRequest demoTwoUserStore :=
  ⟨by decide, rfl,
    (saved_endpoints_act_on_path_user demoLib Store repository.userRepo
      (repository.saveMoviesRepo demoLib) (repository.movieRepo demoLib) demoForeignRequest
      demoTwoUserStore ⟨1, "A", "2000-01-01", "key-1"⟩ (by decide) rfl).2.1⟩

/-! ## `SELECT DISTINCT` and `ORDER BY` -/

/-- The page query of `ListSavedMovies` written with its select list and its `ORDER BY`
expression. -/
theorem ListSavedMoviesPlan_select_order (L : Lib) (u : UUID) (cc : String)
    (page pageSize : Int) (sortBy : String) :
    (repository.ListSavedMoviesPlan.build L u cc page pageSize sortBy).query.query =
      "\n\t\tSELECT DISTINCT " ++
        ", ".intercalate
          (repository.ListSavedMoviesPlan.build L u cc page pageSize sortBy).selectList ++
        "\n\t\tFROM save_movies sm\n\t\tINNER JOIN movies m ON sm.movie_id = m.id\n\t\t" ++
        "INNER JOIN movie_availability ma ON m.id = ma.movie_id\n\t\t" ++
        "WHERE sm.user_id = $1 AND ma.country_code = $2\n\t\t" ++ "ORDER BY " ++
        (repository.ListSavedMoviesPlan.build L u cc page pageSize sortBy).orderExpr ++
        (if sortBy = "date_added" then " ASC" else " DESC") ++
        "\n\t\tLIMIT $3 OFFSET $4\n\t" := by
  have i : ", ".intercalate ["m.id", "m.title", "m.year", "m.genre_id"] =
      "m.id, m.title, m.year, m.genre_id" := by decide
  by_cases h : sortBy = "date_added"
  · simp [repository.ListSavedMoviesPlan.build, h, i]
  · simp [repository.ListSavedMoviesPlan.build, h, i]

/-- On every store `saveMoviesRepo.ListSavedMovies` fails: its page query is rejected. -/
theorem repo_ListSavedMovies_error (L : Lib) (db : Store) (u : UUID) (cc : String)
    (page pageSize : Int) (sortBy : String) :
    repository.ListSavedMovies L db u cc page pageSize sortBy =
      Except.error ("ERROR: for SELECT DISTINCT, ORDER BY expressions must appear in " ++
        "select list (SQLSTATE 42P10)") := by
  have h : repository.checkDistinctOrder
      (repository.ListSavedMoviesPlan.build L u cc page pageSize sortBy).selectList
      (repository.ListSavedMoviesPlan.build L u cc page pageSize sortBy).orderExpr =
      some ("ERROR: for SELECT DISTINCT, ORDER BY expressions must appear in select list " ++
        "(SQLSTATE 42P10)") := by
    show repository.checkDistinctOrder ["m.id", "m.title", "m.year", "m.genre_id"]
      "sm.date_added" = _
    decide
  have e : ("ERROR: for SELECT DISTINCT, ORDER BY expressions must appear in select list " ++
      "(SQLSTATE 42P10)" : String) =
      "ERROR: for SELECT DISTINCT, ORDER BY expressions must appear in " ++
        "select list (SQLSTATE 42P10)" := by decide
  unfold repository.ListSavedMovies
  simp only [h]
  rw [e]

/-- The select list and the `ORDER BY` expression of `movieRepo.ListMovies`. -/
theorem ListMoviesPlan_select_order (L : Lib) (c : Option String) (g : Option UUID)
    (page pageSize : Int) (sortBy : String) :
    (repository.ListMoviesPlan.build L c g page pageSize sortBy).selectList =
      ["m.id", "m.title", "m.year", "m.genre_id"] ∧
    (repository.ListMoviesPlan.build L c g page pageSize sortBy).orderExpr = "m.year" := by
  cases g <;> cases c with
  | none => exact ⟨rfl, rfl⟩
  | some c => by_cases h : c = "" <;> simp [repository.ListMoviesPlan.build, h]

/-- C19, evaluated where the claim fails: the page query of `ListSavedMovies` is a
`SELECT DISTINCT` over `m.id, m.title, m.year, m.genre_id` ordered by `sm.date_added`, which
is not in that list, so the store rejects it and every valid request to the saved-movie
listing is answered 500; the page query of `ListMovies` orders by `m.year`, which is in its
list. -/
theorem savedMovies_order_by_outside_select_list (L : Lib) (u : UUID) (cc : String)
    (c : Option String) (g : Option UUID) (page pageSize : Int) (sortBy : String) :
    ((repository.ListSavedMoviesPlan.build L u cc page pageSize sortBy).query.query =
      "\n\t\tSELECT DISTINCT " ++
        ", ".intercalate
          (repository.ListSavedMoviesPlan.build L u cc page pageSize sortBy).selectList ++
        "\n\t\tFROM save_movies sm\n\t\tINNER JOIN movies m ON sm.movie_id = m.id\n\t\t" ++
        "INNER JOIN movie_availability ma ON m.id = ma.movie_id\n\t\t" ++
        "WHERE sm.user_id = $1 AND ma.country_code = $2\n\t\t" ++ "ORDER BY " ++
        (repository.ListSavedMoviesPlan.build L u cc page pageSize sortBy).orderExpr ++
        (if sortBy = "date_added" then " ASC" else " DESC") ++
        "\n\t\tLIMIT $3 OFFSET $4\n\t") ∧
    (repository.ListSavedMoviesPlan.build L u cc page pageSize sortBy).selectList =
      ["m.id", "m.title", "m.year", "m.genre_id"] ∧
    (repository.ListSavedMoviesPlan.build L u cc page pageSize sortBy).orderExpr =
      "sm.date_added" ∧
    (repository.ListSavedMoviesPlan.build L u cc page pageSize sortBy).orderExpr ∉
      (repository.ListSavedMoviesPlan.build L u cc page pageSize sortBy).selectList ∧
    (∀ db : Store, repository.ListSavedMovies L db u cc page pageSize sortBy =
      Except.error ("ERROR: for SELECT DISTINCT, ORDER BY expressions must appear in " ++
        "select list (SQLSTATE 42P10)")) ∧
    (∀ (r : Request) (db : Store) (a : handler.ListSavedMoviesArgs),
      handler.ListSavedMoviesValidate L r = Except.ok a →
      (handler.ListSavedMovies L (repository.saveMoviesRepo L) (repository.movieRepo L) r
        db).status = 500) ∧
    ((repository.ListMoviesPlan.build L c g page pageSize sortBy).sortClause =
      "ORDER BY " ++ (repository.ListMoviesPlan.build L c g page pageSize sortBy).orderExpr ++
        (if sortBy = "year" then " ASC" else " DESC")) ∧
    (repository.ListMoviesPlan.build L c g page pageSize sortBy).orderExpr ∈
      (repository.ListMoviesPlan.build L c g page pageSize sortBy).selectList := by
  have hn : (repository.ListSavedMoviesPlan.build L u cc page pageSize sortBy).orderExpr ∉
      (repository.ListSavedMoviesPlan.build L u cc page pageSize sortBy).selectList := by
    show "sm.date_added" ∉ ["m.id", "m.title", "m.year", "m.genre_id"]
    decide
  refine ⟨ListSavedMoviesPlan_select_order L u cc page pageSize sortBy, rfl, rfl, hn,
    fun db => repo_ListSavedMovies_error L db u cc page pageSize sortBy, ?_, ?_, ?_⟩
  · intro r db a ha
    simp only [handler.ListSavedMovies, ha, repository.saveMoviesRepo,
      repo_ListSavedMovies_error]
    rfl
  · rw [ListMoviesPlan_sortClause, (ListMoviesPlan_select_order L c g page pageSize sortBy).2]
    by_cases h : sortBy = "year"
    · rw [if_pos h, if_pos h]; decide
    · rw [if_neg h, if_neg h]; decide
  · rw [(ListMoviesPlan_select_order L c g page pageSize sortBy).1,
      (ListMoviesPlan_select_order L c g page pageSize sortBy).2]
    decide

/-- Witness of `sort_direction`: `GET /movies?sort=year` hands on `year`, which has no
leading `-` and orders ascending. -/
theorem sort_direction_witness :
    handler.ListMoviesValidate demoLib { Query := [("sort", "year")] } =
      Except.ok ⟨none, none, 1, 20, "year"⟩ ∧
    "year".data.head? ≠ some '-' ∧
    (repository.ListMoviesPlan.build demoLib none none 1 20 "year").sortClause =
      "ORDER BY m.year ASC" :=
  ⟨rfl, by decide,
    ((sort_direction demoLib { Query := [("sort", "year")] } none none 1 "US" 1 20).1
      ⟨none, none, 1, 20, "year"⟩ rfl).2 (by decide)⟩

/-- Witness of `listMovies_count_same_filter`: the US listing of the demo store. -/
theorem listMovies_count_same_filter_witness :
    repository.ListMovies demoLib demoStore (some "us") none 1 20 "-year" =
      Except.ok ([⟨7, "T", 1999, none⟩], 1) ∧
    (1 : Int) = (((repository.listMoviesRows demoStore none
      (countryFilter demoLib (some "us"))).map fun m => m.ID).dedup.length : Nat) :=
  ⟨rfl,
    ((listMovies_count_same_filter demoLib (some "us") none 1 20 "-year").2.2.2.2 demoStore
      [⟨7, "T", 1999, none⟩] 1 rfl).1⟩

/-- Witness of `listMovies_where_and_placeholders`: genre 3 and country `US`. -/
theorem listMovies_where_and_placeholders_witness :
    ("US" : String) ≠ "" ∧
    (repository.ListMoviesPlan.build demoLib (some "US") (some 3) 2 20 "year").whereClause =
      "WHERE m.genre_id = $1 AND ma.country_code = $2" :=
  ⟨by decide,
    ((listMovies_where_and_placeholders demoLib 3 "US" 2 20 "year").2.2.2 (by decide)).2.2.1⟩

end MoviesAPI
